import Mathlib

/-!
Shallow embedding of the seat-reservation / booking-confirmation core of the
Evently backend (an event-ticketing platform), together with proofs about it.

Sources embedded here:
* the production booking controller (reserveSeats, confirmBooking,
  cancelBooking, releaseReservation) from src/controllers/bookingController.js
  concatenated into src/src/controllers/adminController.js;
* the Booking model instance/class methods from src/src/models/Booking.js;
* the Seat model class methods from src/models/Seat.js (src/unnamed/part_015);
* the alternate BookingController class (its confirmBooking and scheduleExpiry);
* the Redis-based distributed lock from src/config/redis.js
  (concatenated into src/src/middleware/validation.js).

Conventions: times are naturals (milliseconds since epoch); SQL NULL becomes
Option; money amounts (DECIMAL columns, JS floats) become rationals; uuids
become naturals.  SQL comparison semantics are kept: a comparison against
NULL is false.
-/

namespace Evently

/-- Booking status values: the ENUM of src/src/models/Booking.js plus the
SEAT_SELECTED status used by the alternate BookingController variant. -/
inductive BookingStatus
  | RESERVED
  | CONFIRMED
  | CANCELLED
  | EXPIRED
  | REFUNDED
  | SEAT_SELECTED
deriving Repr, DecidableEq

/-- Payment status ENUM of src/src/models/Booking.js. -/
inductive PaymentStatus
  | PENDING
  | PROCESSING
  | COMPLETED
  | FAILED
  | REFUNDED
deriving Repr, DecidableEq

/-- Event status ENUM of src/models/Event.js. -/
inductive EventStatus
  | DRAFT
  | PUBLISHED
  | CANCELLED
  | COMPLETED
deriving Repr, DecidableEq

/-- Booking type ENUM of src/src/models/Booking.js. -/
inductive BookingType
  | GENERAL
  | SEAT_SELECTION
  | VIP_PACKAGE
deriving Repr, DecidableEq

/-- Inventory unit row, from src/models/Seat.js (src/unnamed/part_015). -/
structure Seat where
  id : Nat
  eventId : Nat
  price : ℚ
  isBooked : Bool
  isReserved : Bool
  isBlocked : Bool
  bookedBy : Option Nat
  bookingId : Option Nat
  bookedAt : Option Nat
  reservedBy : Option Nat
  reservedAt : Option Nat
  reserveExpiresAt : Option Nat
  version : Nat
deriving Repr, DecidableEq

/-- Event row, from src/models/Event.js; only the columns the booking core
reads and writes. -/
structure EventRec where
  id : Nat
  dateTime : Nat
  capacity : Nat
  availableSeats : Nat
  reservedSeats : Nat
  bookedSeats : Nat
  price : ℚ
  status : EventStatus
deriving Repr, DecidableEq

/-- Booking row, from src/src/models/Booking.js.  The two trailing fields
model Sequelize eager-loaded associations on the in-memory instance: the
association is declared with alias event (models/index.js:
Booking.belongsTo(Event, as event)), so controller includes populate the
field named event; the instance methods of Booking.js however read
this.Event, the field named Event, which no code path populates. -/
structure Booking where
  id : Nat
  userId : Nat
  eventId : Nat
  ticketCount : Nat
  totalAmount : ℚ
  bookingType : BookingType
  status : BookingStatus
  reservationExpiresAt : Option Nat
  confirmedAt : Option Nat
  expiredAt : Option Nat
  paymentStatus : PaymentStatus
  paymentId : Option String
  paymentMethod : Option String
  seatDetails : Option (List Nat)
  cancelledAt : Option Nat
  cancellationReason : Option String
  refundAmount : Option ℚ
  event : Option EventRec
  Event : Option EventRec
deriving Repr, DecidableEq

/-- The transactional store: events, seats and bookings tables. -/
structure DB where
  events : List EventRec
  seats : List Seat
  bookings : List Booking
deriving Repr, DecidableEq

/-- SQL comparison x < t on a nullable column: NULL compares false. -/
def optLt (x : Option Nat) (t : Nat) : Bool :=
  match x with
  | some e => decide (e < t)
  | none => false

/-- SQL comparison x > t on a nullable column: NULL compares false. -/
def optGt (x : Option Nat) (t : Nat) : Bool :=
  match x with
  | some e => decide (t < e)
  | none => false

/-- Reservation hold duration: 15 minutes in milliseconds
(bookingController.js line 659, 703). -/
def HOLD_MS : Nat := 15 * 60 * 1000

/-- The WHERE clause of the re-read under SELECT ... FOR UPDATE in the
production controller reserveSeats (adminController.js lines 615-630):
id among the selected seats, same event, not booked, and either not
reserved or reserved with an expired reservation.  There is no isBlocked
condition and no reserved-by-the-same-user clause in this controller. -/
def seatPassesReread (eventId : Nat) (selected : List Nat) (now : Nat) (s : Seat) : Bool :=
  decide (s.id ∈ selected) && decide (s.eventId = eventId) && !s.isBooked &&
    (!s.isReserved || (s.isReserved && optLt s.reserveExpiresAt now))

/-- The WHERE clause of the re-read in Seat.reserveSeats
(src/models/Seat.js lines 195-215): additionally requires not blocked, and
also admits seats already reserved by the requesting user. -/
def seatModelPassesReread (eventId userId : Nat) (seatIds : List Nat) (now : Nat)
    (s : Seat) : Bool :=
  decide (s.id ∈ seatIds) && decide (s.eventId = eventId) && !s.isBooked && !s.isBlocked &&
    (!s.isReserved || (s.isReserved && optLt s.reserveExpiresAt now) ||
      (s.isReserved && decide (s.reservedBy = some userId)))

/-- The candidate filter exactly as the specification words it: not booked,
not blocked, and (not reserved OR reservation expired OR reserved by the
same user).  Used only to compare the source filters against the spec. -/
def specCandidateFilter (eventId userId : Nat) (seatIds : List Nat) (now : Nat)
    (s : Seat) : Bool :=
  decide (s.id ∈ seatIds) && decide (s.eventId = eventId) && !s.isBooked && !s.isBlocked &&
    (!s.isReserved || optLt s.reserveExpiresAt now || decide (s.reservedBy = some userId))

/-- The Seat.update applied to the selected ids on a successful reservation
(adminController.js lines 655-664): mark reserved, record holder and
timestamps, bump the optimistic version counter. -/
def applyReserveUpdate (selected : List Nat) (userId now : Nat) (s : Seat) : Seat :=
  if s.id ∈ selected then
    { s with isReserved := true, reservedBy := some userId, reservedAt := some now,
             reserveExpiresAt := some (now + HOLD_MS), version := s.version + 1 }
  else s

/-- Booking.findOne filter for an existing active reservation of this user
for this event (adminController.js lines 574-581). -/
def isActiveReservationOf (userId eventId now : Nat) (b : Booking) : Bool :=
  decide (b.userId = userId) && decide (b.eventId = eventId) &&
    decide (b.status = BookingStatus.RESERVED) && optGt b.reservationExpiresAt now

/-- Result of a reservation request, mirroring the distinct HTTP responses of
reserveSeats. -/
inductive ReserveResult
  | success (bookingId : Nat) (totalAmount : ℚ) (expiresAt : Nat)
  | invalid (msg : String)
  | eventNotFound
  | notBookable
  | duplicateHold (existingBookingId : Nat)
  | lockBusy
  | unavailable (availableIds unavailableIds : List Nat)
  | insufficientCapacity (available requested : Nat)
  | createError
deriving Repr, DecidableEq

/-- Outcome of a reservation request: the response, the store after the
request, and whether the distributed event lock was taken and released. -/
structure ReserveOutcome where
  result : ReserveResult
  db : DB
  lockTaken : Bool
  lockReleased : Bool
deriving Repr, DecidableEq

/-- Ticket count for the general-admission branch:
parseInt(selectedSeats[0]) || 1 (adminController.js line 668). -/
def capacityCount (selectedSeats : List Nat) : Nat :=
  let n0 := selectedSeats.headD 0
  if n0 = 0 then 1 else n0

/-- Validation on Booking.create from src/src/models/Booking.js
(ticketCount: min 1, max 10); Sequelize runs it on every insert. -/
def bookingCreateValid (ticketCount : Nat) : Bool :=
  decide (1 ≤ ticketCount) && decide (ticketCount ≤ 10)

/-- The Booking row inserted by a successful seat-selection reservation
(adminController.js lines 694-712): status RESERVED, 15-minute expiry, the
reserved seats recorded in seatDetails. -/
def reservedRow (nb u ev : Nat) (found : List Seat) (bt : BookingType)
    (now : Nat) : Booking :=
  { id := nb, userId := u, eventId := ev,
    ticketCount := found.length,
    totalAmount := (found.map (fun s => s.price)).sum,
    bookingType := bt, status := BookingStatus.RESERVED,
    reservationExpiresAt := some (now + HOLD_MS),
    confirmedAt := none, expiredAt := none,
    paymentStatus := PaymentStatus.PENDING,
    paymentId := none, paymentMethod := none,
    seatDetails := some (found.map (fun s => s.id)),
    cancelledAt := none, cancellationReason := none,
    refundAmount := none, event := none, Event := none }

/-- The Booking row inserted by a successful general-admission reservation:
same shape with a ticket count and no seatDetails. -/
def capacityRow (nb u ev count : Nat) (amount : ℚ) (bt : BookingType)
    (now : Nat) : Booking :=
  { id := nb, userId := u, eventId := ev,
    ticketCount := count, totalAmount := amount,
    bookingType := bt, status := BookingStatus.RESERVED,
    reservationExpiresAt := some (now + HOLD_MS),
    confirmedAt := none, expiredAt := none,
    paymentStatus := PaymentStatus.PENDING,
    paymentId := none, paymentMethod := none,
    seatDetails := none,
    cancelledAt := none, cancellationReason := none,
    refundAmount := none, event := none, Event := none }

/-- The production reserveSeats controller (adminController.js lines
533-770), restricted to its store effects.  The distributed-lock acquire
outcome is the lockAvailable input; newBookingId stands for the generated
primary key.  Failure paths inside the transaction roll it back, so they
return the store unchanged. -/
def reserveSeats (db : DB) (userId eventId : Nat) (selectedSeats : List Nat)
    (bookingType : BookingType) (lockAvailable : Bool) (now : Nat)
    (newBookingId : Nat) : ReserveOutcome :=
  if selectedSeats.isEmpty then
    ⟨.invalid "Event ID and selected seats are required", db, false, false⟩
  else if selectedSeats.length > 10 then
    ⟨.invalid "Maximum 10 seats can be reserved at once", db, false, false⟩
  else
    match db.events.find? (fun e => decide (e.id = eventId)) with
    | none => ⟨.eventNotFound, db, false, false⟩
    | some event =>
      if !(decide (event.status = EventStatus.PUBLISHED)) || decide (event.dateTime < now) then
        ⟨.notBookable, db, false, false⟩
      else
        match db.bookings.find? (isActiveReservationOf userId eventId now) with
        | some existing => ⟨.duplicateHold existing.id, db, false, false⟩
        | none =>
          if !lockAvailable then ⟨.lockBusy, db, false, false⟩
          else if bookingType = BookingType.SEAT_SELECTION then
            let found := db.seats.filter (seatPassesReread eventId selectedSeats now)
            if found.length ≠ selectedSeats.length then
              let foundIds := found.map (fun s => s.id)
              ⟨.unavailable foundIds (selectedSeats.filter (fun i => !decide (i ∈ foundIds))),
                db, true, true⟩
            else
              let totalAmount := (found.map (fun s => s.price)).sum
              let ticketCount := found.length
              if !bookingCreateValid ticketCount then ⟨.createError, db, true, true⟩
              else
                let booking : Booking :=
                  reservedRow newBookingId userId eventId found bookingType now
                ⟨.success newBookingId totalAmount (now + HOLD_MS),
                  { db with
                      seats := db.seats.map (applyReserveUpdate selectedSeats userId now),
                      bookings := db.bookings ++ [booking] },
                  true, true⟩
          else
            let ticketCount := capacityCount selectedSeats
            if event.availableSeats < ticketCount then
              ⟨.insufficientCapacity event.availableSeats ticketCount, db, true, true⟩
            else
              let totalAmount := event.price * ticketCount
              if !bookingCreateValid ticketCount then ⟨.createError, db, true, true⟩
              else
                let booking : Booking :=
                  capacityRow newBookingId userId eventId ticketCount totalAmount
                    bookingType now
                ⟨.success newBookingId totalAmount (now + HOLD_MS),
                  { db with
                      events := db.events.map (fun e =>
                        if decide (e.id = event.id) then
                          { e with availableSeats := e.availableSeats - ticketCount,
                                   reservedSeats := e.reservedSeats + ticketCount }
                        else e),
                      bookings := db.bookings ++ [booking] },
                  true, true⟩

/-- Outcome reported by the payment collaborator, the pass-or-fail contract
of processPayment (adminController.js lines 1504-1561).  Because the gateway
is simulated with randomness, its verdict is an input to the model. -/
inductive PaymentOutcome
  | ok (paymentId : String)
  | declined (error : String)
deriving Repr, DecidableEq

/-- Result of a confirmation request, mirroring the distinct HTTP responses
of the production confirmBooking. -/
inductive ConfirmResult
  | success (bookingId : Nat)
  | reservationNotFound
  | gone
  | lockBusy
  | paymentFailed (msg : String)
deriving Repr, DecidableEq

/-- Outcome of a confirmation request: response, resulting store, whether
the payment collaborator was invoked, and the booking-level lock lifecycle. -/
structure ConfirmOutcome where
  result : ConfirmResult
  db : DB
  paymentCalled : Bool
  lockTaken : Bool
  lockReleased : Bool
deriving Repr, DecidableEq

/-- The expiry test of the production confirmBooking (line 808):
new Date() > new Date(booking.reservationExpiresAt).  In JS,
new Date(null) is the epoch, so a NULL expiry compares as 0. -/
def confirmExpiredCheck (expiresAt : Option Nat) (now : Nat) : Bool :=
  match expiresAt with
  | some e => decide (e < now)
  | none => decide (0 < now)

/-- The Seat.update converting the reserved seats of a booking to booked
(adminController.js lines 859-872), applied to the ids stored in the
booking's seatDetails. -/
def applyConfirmUpdate (seatIds : List Nat) (userId bookingId now : Nat) (s : Seat) : Seat :=
  if s.id ∈ seatIds then
    { s with isBooked := true, isReserved := false, bookedBy := some userId,
             bookingId := some bookingId, bookedAt := some now,
             reservedBy := none, reservedAt := none, reserveExpiresAt := none,
             version := s.version + 1 }
  else s

/-- The booking.update of the production confirmBooking on payment success
(lines 845-852). -/
def applyConfirmBookingUpdate (paymentId : String) (method : String) (now : Nat)
    (b : Booking) : Booking :=
  { b with status := BookingStatus.CONFIRMED, paymentStatus := PaymentStatus.COMPLETED,
           paymentId := some paymentId, paymentMethod := some method,
           confirmedAt := some now, reservationExpiresAt := none }

/-- The Booking.findOne filter of the production confirmBooking
(adminController.js lines 789-798): this id, this user, status RESERVED. -/
def confirmFindPred (bookingId userId : Nat) (b : Booking) : Bool :=
  decide (b.id = bookingId) && decide (b.userId = userId) &&
    decide (b.status = BookingStatus.RESERVED)

/-- The production confirmBooking controller (adminController.js lines
780-939), restricted to its store effects.  The payment collaborator's
verdict and the booking-level lock acquire outcome are inputs; paymentMethod
is the supplied method (defaulted to CARD in the source). -/
def confirmBooking (db : DB) (bookingId userId : Nat) (payment : PaymentOutcome)
    (method : String) (lockAvailable : Bool) (now : Nat) : ConfirmOutcome :=
  match db.bookings.find? (confirmFindPred bookingId userId) with
  | none => ⟨.reservationNotFound, db, false, false, false⟩
  | some booking =>
    if confirmExpiredCheck booking.reservationExpiresAt now then
      ⟨.gone, db, false, false, false⟩
    else if !lockAvailable then ⟨.lockBusy, db, false, false, false⟩
    else
      match payment with
      | .declined err =>
        ⟨.paymentFailed ("Payment failed: " ++ err), db, true, true, true⟩
      | .ok paymentId =>
        let bookings2 := db.bookings.map (fun b =>
          if decide (b.id = booking.id) then
            applyConfirmBookingUpdate paymentId method now b
          else b)
        if booking.bookingType = BookingType.SEAT_SELECTION then
          let seatIds := booking.seatDetails.getD []
          ⟨.success booking.id,
            { db with
                bookings := bookings2,
                seats := db.seats.map (applyConfirmUpdate seatIds userId booking.id now) },
            true, true, true⟩
        else
          ⟨.success booking.id,
            { db with
                bookings := bookings2,
                events := db.events.map (fun e =>
                  if decide (e.id = booking.eventId) then
                    { e with reservedSeats := e.reservedSeats - booking.ticketCount,
                             bookedSeats := e.bookedSeats + booking.ticketCount }
                  else e) },
            true, true, true⟩

/-- Booking.prototype.canBeCancelled (src/src/models/Booking.js lines
197-213).  Note it reads this.Event, the association slot the controllers
never populate (they include with alias event). -/
def canBeCancelled (b : Booking) (now : Nat) : Bool :=
  if b.status = BookingStatus.CANCELLED ∨ b.status = BookingStatus.EXPIRED then false
  else if b.status = BookingStatus.CONFIRMED then
    match b.Event with
    | some ev => decide (now + 24 * 3600000 < ev.dateTime)
    | none => decide (b.status = BookingStatus.RESERVED)
  else decide (b.status = BookingStatus.RESERVED)

/-- Booking.prototype.calculateRefundAmount (src/src/models/Booking.js lines
215-232).  The hour thresholds 168 and 24 are converted to milliseconds;
hoursUntilEvent > h is dateTime - now > h hours, date arithmetic done on
the timeline so that a past event never counts as h hours away. -/
def calculateRefundAmount (b : Booking) (now : Nat) : ℚ :=
  if !canBeCancelled b now then 0
  else
    let baseRefund := b.totalAmount
    match b.Event with
    | some ev =>
      if decide (now + 168 * 3600000 < ev.dateTime) then baseRefund
      else if decide (now + 24 * 3600000 < ev.dateTime) then baseRefund * (8 / 10)
      else baseRefund * (1 / 2)
    | none => baseRefund * (1 / 2)

/-- Seat.releaseReservation (src/models/Seat.js lines 261-284) with a
bookingId given: clear the reservation fields of this user's reserved,
unbooked seats for that booking and bump version. -/
def releaseReservationUpdate (userId bookingId : Nat) (s : Seat) : Seat :=
  if decide (s.reservedBy = some userId) && s.isReserved && !s.isBooked &&
      decide (s.bookingId = some bookingId) then
    { s with isReserved := false, reservedBy := none, reservedAt := none,
             reserveExpiresAt := none, version := s.version + 1 }
  else s

/-- The Seat.update releasing permanently booked seats on cancellation of a
CONFIRMED booking (adminController.js lines 1371-1380). -/
def releaseBookedUpdate (seatIds : List Nat) (s : Seat) : Seat :=
  if s.id ∈ seatIds then
    { s with isBooked := false, bookedBy := none, bookingId := none,
             bookedAt := none, version := s.version + 1 }
  else s

/-- Result of a cancellation request, mirroring the distinct HTTP responses
of the production cancelBooking. -/
inductive CancelResult
  | success (bookingId : Nat) (refundAmount : ℚ)
  | bookingNotFound
  | cannotCancel
deriving Repr, DecidableEq

/-- Outcome of a cancellation request. -/
structure CancelOutcome where
  result : CancelResult
  db : DB
deriving Repr, DecidableEq

/-- The production cancelBooking controller (adminController.js lines
1316-1434), restricted to its store effects.  The fetched instance gets its
event association populated under the alias event; the Event slot stays
empty.  The source updates the instance to CANCELLED first and only then
branches on booking.status, so the branch variable b1 below already carries
status CANCELLED, exactly as the mutated Sequelize instance does. -/
def cancelBooking (db : DB) (bookingId userId : Nat) (reason : String)
    (now : Nat) : CancelOutcome :=
  match db.bookings.find? (fun b =>
      decide (b.id = bookingId) && decide (b.userId = userId)) with
  | none => ⟨.bookingNotFound, db⟩
  | some b0 =>
    let booking := { b0 with event := db.events.find? (fun e => decide (e.id = b0.eventId)) }
    if !canBeCancelled booking now then ⟨.cannotCancel, db⟩
    else
      let refundAmount := calculateRefundAmount booking now
      let b1 := { booking with
                    status := BookingStatus.CANCELLED, cancelledAt := some now,
                    cancellationReason := some reason, refundAmount := some refundAmount }
      let bookings2 := db.bookings.map (fun b =>
        if decide (b.id = b1.id) then
          { b1 with event := none, Event := b0.Event }
        else b)
      if b1.bookingType = BookingType.SEAT_SELECTION then
        let seats2 :=
          if b1.status = BookingStatus.RESERVED then
            db.seats.map (releaseReservationUpdate userId b1.id)
          else if b1.status = BookingStatus.CONFIRMED then
            db.seats.map (releaseBookedUpdate (b1.seatDetails.getD []))
          else db.seats
        ⟨.success b1.id refundAmount, { db with bookings := bookings2, seats := seats2 }⟩
      else
        let seatsToRelease := b1.ticketCount
        let events2 :=
          if b1.status = BookingStatus.RESERVED then
            db.events.map (fun e =>
              if decide (e.id = b1.eventId) then
                { e with availableSeats := e.availableSeats + seatsToRelease,
                         reservedSeats := e.reservedSeats - seatsToRelease }
              else e)
          else
            db.events.map (fun e =>
              if decide (e.id = b1.eventId) then
                { e with availableSeats := e.availableSeats + seatsToRelease,
                         bookedSeats := e.bookedSeats - seatsToRelease }
              else e)
        ⟨.success b1.id refundAmount, { db with bookings := bookings2, events := events2 }⟩

/-- Booking.cleanupExpiredReservations (src/src/models/Booking.js lines
249-278): mark every RESERVED booking whose reservationExpiresAt is before
now as EXPIRED and stamp expiredAt. -/
def bookingCleanupExpired (db : DB) (now : Nat) : DB :=
  { db with
      bookings := db.bookings.map (fun b =>
        if decide (b.status = BookingStatus.RESERVED) && optLt b.reservationExpiresAt now then
          { b with status := BookingStatus.EXPIRED, expiredAt := some now }
        else b) }

/-- Seat.cleanupExpiredReservations (src/models/Seat.js lines 286-305):
release every reserved, unbooked seat whose reservation has expired by
clearing the reservation fields and bumping version. -/
def seatCleanupExpired (db : DB) (now : Nat) : DB :=
  { db with
      seats := db.seats.map (fun s =>
        if s.isReserved && optLt s.reserveExpiresAt now && !s.isBooked then
          { s with isReserved := false, reservedBy := none, reservedAt := none,
                   reserveExpiresAt := none, version := s.version + 1 }
        else s) }

/-- The expiry reaper sweep: the two cleanup class methods run over the
store at the same instant. -/
def reaperSweep (db : DB) (now : Nat) : DB :=
  seatCleanupExpired (bookingCleanupExpired db now) now

/-- BookingController.scheduleExpiry's timer body (adminController.js lines
2219-2229): set status EXPIRED on the one booking if it is still
SEAT_SELECTED or RESERVED; nothing else is touched. -/
def scheduleExpiryFire (db : DB) (bookingId : Nat) : DB :=
  { db with
      bookings := db.bookings.map (fun b =>
        if decide (b.id = bookingId) &&
            (decide (b.status = BookingStatus.SEAT_SELECTED) ||
             decide (b.status = BookingStatus.RESERVED)) then
          { b with status := BookingStatus.EXPIRED }
        else b) }

/-- Result of the alternate BookingController.confirmBooking
(adminController.js lines 1676-1796): thrown createError kinds and success. -/
inductive BcConfirmResult
  | success (bookingId : Nat)
  | notFound
  | gone
  | badRequest (msg : String)
deriving Repr, DecidableEq

/-- Outcome of the alternate controller's confirmation. -/
structure BcConfirmOutcome where
  result : BcConfirmResult
  db : DB
  paymentCalled : Bool
deriving Repr, DecidableEq

/-- The alternate BookingController.confirmBooking (adminController.js lines
1676-1796), restricted to its store effects.  It looks up a SEAT_SELECTED or
RESERVED booking; on a lapsed reservation it updates the booking to EXPIRED
(outside any transaction, with a null guard on the expiry) and throws Gone;
on payment success it confirms and stores ticket hash and QR code (modelled
as the opaque inputs ticketHash and qrCode); no Seat rows exist in this
controller variant. -/
def bcConfirmBooking (db : DB) (bookingId userId : Nat) (payment : PaymentOutcome)
    (method ticketHash qrCode : String) (now : Nat) : BcConfirmOutcome :=
  match db.bookings.find? (fun b =>
      decide (b.id = bookingId) && decide (b.userId = userId) &&
      (decide (b.status = BookingStatus.SEAT_SELECTED) ||
       decide (b.status = BookingStatus.RESERVED))) with
  | none => ⟨.notFound, db, false⟩
  | some booking =>
    if optLt booking.reservationExpiresAt now then
      ⟨.gone,
        { db with bookings := db.bookings.map (fun b =>
            if decide (b.id = booking.id) then { b with status := BookingStatus.EXPIRED }
            else b) },
        false⟩
    else
      match payment with
      | .declined err => ⟨.badRequest ("Payment failed: " ++ err), db, true⟩
      | .ok paymentId =>
        let _ := ticketHash
        let _ := qrCode
        ⟨.success booking.id,
          { db with bookings := db.bookings.map (fun b =>
              if decide (b.id = booking.id) then
                { b with status := BookingStatus.CONFIRMED,
                         paymentStatus := PaymentStatus.COMPLETED,
                         paymentId := some paymentId, paymentMethod := some method,
                         reservationExpiresAt := none }
              else b) },
          true⟩

/-! Redis-based distributed lock, from src/config/redis.js (concatenated into
src/src/middleware/validation.js).  The store is an association list from
keys to string values; TTL-based auto-expiry is time-driven and left out of
the store model (acquire's PX argument only bounds how long a leaked lock
can last). -/

/-- The Redis string keyspace. -/
def RedisStore := List (String × String)
deriving Repr, DecidableEq

/-- GET k on the keyspace. -/
def redisLookup (store : RedisStore) (k : String) : Option String :=
  match store.find? (fun p => decide (p.1 = k)) with
  | some p => some p.2
  | none => none

/-- DEL k on the keyspace. -/
def redisDel (store : RedisStore) (k : String) : RedisStore :=
  store.filter (fun p => !decide (p.1 = k))

/-- The value lock.acquire hands back on success (validation.js line 128). -/
structure LockInfo where
  key : String
  value : String
deriving Repr, DecidableEq

/-- lock.acquire (validation.js lines 121-135): SET lock:resource token PX
ttl NX; token is the caller-generated Date.now()-Math.random() string,
an input here. -/
def lockAcquire (store : RedisStore) (resource token : String) :
    Option LockInfo × RedisStore :=
  let lockKey := "lock:" ++ resource
  match redisLookup store lockKey with
  | none => (some ⟨lockKey, token⟩, (lockKey, token) :: store)
  | some _ => (none, store)

/-- An argument a Lua script passes to redis.call: a plain string, or a whole
Lua table such as the KEYS or ARGV array. -/
inductive LuaArg
  | str (s : String)
  | table (xs : List String)
deriving Repr, DecidableEq

/-- Reply of a redis command inside Lua. -/
inductive RedisReply
  | bulk (s : Option String)
  | num (n : Nat)
deriving Repr, DecidableEq

/-- redis.call as the release script can reach it: GET and DEL.  Redis
accepts only strings and numbers as command arguments; passing a Lua table
(for example the whole KEYS array) raises the script error below. -/
def redisCall (store : RedisStore) (cmd : String) (args : List LuaArg) :
    Except String (RedisReply × RedisStore) :=
  if args.any (fun a => match a with | .table _ => true | .str _ => false) then
    .error "Lua redis lib command arguments must be strings or integers"
  else
    match cmd, args with
    | "GET", [.str k] => .ok (.bulk (redisLookup store k), store)
    | "DEL", [.str k] =>
      .ok (.num (match redisLookup store k with | some _ => 1 | none => 0),
        redisDel store k)
    | _, _ => .error "unknown command"

/-- Lua equality between a redis reply and a table: a string or nil is never
equal to a table, and a fresh table compares by reference. -/
def luaReplyEqTable (_r : RedisReply) (_t : List String) : Bool := false

/-- The release script exactly as the source writes it (validation.js lines
138-144): if redis.call GET KEYS equals ARGV then return redis.call DEL
KEYS else return 0 — note it passes the whole KEYS table, not its first
element, to redis.call, and compares against the whole ARGV table. -/
def releaseScriptEval (store : RedisStore) (keys argv : List String) :
    Except String (Nat × RedisStore) :=
  match redisCall store "GET" [LuaArg.table keys] with
  | .error e => .error e
  | .ok (got, store1) =>
    if luaReplyEqTable got argv then
      match redisCall store1 "DEL" [LuaArg.table keys] with
      | .error e => .error e
      | .ok (_, store2) => .ok (1, store2)
    else .ok (0, store1)

/-- lock.release (validation.js lines 137-153): run the script through EVAL
with one key and one argument; a script error is caught and release returns
false, leaving the keyspace untouched. -/
def lockRelease (store : RedisStore) (lockKey lockValue : String) :
    Bool × RedisStore :=
  match releaseScriptEval store [lockKey] [lockValue] with
  | .ok (r, store2) => (decide (r = 1), store2)
  | .error _ => (false, store)

/-- The compare-and-delete the claim describes (and the script evidently
intends, with KEYS and ARGV indexed at 1): delete the entry and return true
iff the stored value equals the supplied holder token. -/
def lockReleaseSpec (store : RedisStore) (lockKey lockValue : String) :
    Bool × RedisStore :=
  match redisLookup store lockKey with
  | some v => if v = lockValue then (true, redisDel store lockKey) else (false, store)
  | none => (false, store)

/-! Serialized reservation traces for the concurrency claims.  The
distributed per-event lock plus the SELECT ... FOR UPDATE row locks
serialize conflicting reservation attempts, so a set of concurrent requests
executes as some sequence of reserveSeats calls, each seeing the committed
store left by the previous one, with nondecreasing timestamps. -/

/-- One serialized reservation attempt. -/
structure ReserveOp where
  userId : Nat
  eventId : Nat
  selectedSeats : List Nat
  bookingType : BookingType
  lockAvailable : Bool
  time : Nat
  newBookingId : Nat
deriving Repr, DecidableEq

/-- The store left behind by one attempt. -/
def runReserveOp (db : DB) (op : ReserveOp) : DB :=
  (reserveSeats db op.userId op.eventId op.selectedSeats op.bookingType
    op.lockAvailable op.time op.newBookingId).db

/-- The store after a serialized run of attempts. -/
def runReserveTrace (db : DB) (ops : List ReserveOp) : DB :=
  ops.foldl runReserveOp db

/-- A booking currently holding units: status RESERVED with an unexpired
reservation, the condition the controllers use for an active hold. -/
def activeHold (b : Booking) (t : Nat) : Bool :=
  decide (b.status = BookingStatus.RESERVED) && optGt b.reservationExpiresAt t

/-- The unit ids a booking holds, from its stored seatDetails. -/
def heldSeatIds (b : Booking) : List Nat :=
  b.seatDetails.getD []

/-- Total number of units held at time t across all active bookings of one
event. -/
def heldUnits (db : DB) (eventId t : Nat) : Nat :=
  ((db.bookings.filter (fun b => activeHold b t && decide (b.eventId = eventId))).map
    (fun b => (heldSeatIds b).length)).sum

/-- The inventory size of one event: how many seat rows it owns. -/
def eventSeatCount (db : DB) (eventId : Nat) : Nat :=
  (db.seats.filter (fun s => decide (s.eventId = eventId))).length

/-- State invariant maintained by serialized reservation traces at time t:
seat ids are unique; every unit of an active hold is backed by a seat row of
the booking's event, marked reserved for the booking's user with the
booking's expiry; active holds list their units without duplicates; and the
units of any two active holds are disjoint. -/
def Inv (db : DB) (t : Nat) : Prop :=
  (db.seats.map (fun s => s.id)).Nodup ∧
  (∀ b ∈ db.bookings, activeHold b t = true →
    ∀ sid ∈ heldSeatIds b, ∃ s ∈ db.seats,
      s.id = sid ∧ s.eventId = b.eventId ∧ s.isBooked = false ∧ s.isReserved = true ∧
        s.reservedBy = some b.userId ∧ s.reserveExpiresAt = b.reservationExpiresAt) ∧
  (∀ b ∈ db.bookings, activeHold b t = true → (heldSeatIds b).Nodup) ∧
  db.bookings.Pairwise (fun b1 b2 =>
    activeHold b1 t = true → activeHold b2 t = true →
    ∀ sid ∈ heldSeatIds b1, sid ∉ heldSeatIds b2)

/-- A seat released back to available by the reaper: reservation fields
cleared, version bumped. -/
def releasedSeat (s : Seat) : Seat :=
  { s with isReserved := false, reservedBy := none, reservedAt := none,
           reserveExpiresAt := none, version := s.version + 1 }

/-! Concrete fixtures used by witnesses and counterexamples. -/

/-- A published event with plenty of capacity, far in the future. -/
def eventA : EventRec :=
  { id := 1, dateTime := 1000000000, capacity := 100, availableSeats := 100,
    reservedSeats := 0, bookedSeats := 0, price := 50, status := .PUBLISHED }

/-- A seat of eventA currently reserved by user 7 until time 900000. -/
def seatA : Seat :=
  { id := 10, eventId := 1, price := 50, isBooked := false, isReserved := true,
    isBlocked := false, bookedBy := none, bookingId := none, bookedAt := none,
    reservedBy := some 7, reservedAt := some 0, reserveExpiresAt := some 900000,
    version := 3 }

/-- The RESERVED booking of user 7 holding seatA until time 900000. -/
def bookingA : Booking :=
  { id := 1, userId := 7, eventId := 1, ticketCount := 1, totalAmount := 50,
    bookingType := .SEAT_SELECTION, status := .RESERVED,
    reservationExpiresAt := some 900000, confirmedAt := none, expiredAt := none,
    paymentStatus := .PENDING, paymentId := none, paymentMethod := none,
    seatDetails := some [10], cancelledAt := none, cancellationReason := none,
    refundAmount := none, event := none, Event := none }

/-- Store with one active hold: user 7 holds seatA through bookingA. -/
def dbA : DB := { events := [eventA], seats := [seatA], bookings := [bookingA] }

theorem lockRelease_always_false (store : RedisStore) (k v : String) :
    lockRelease store k v = (false, store) := rfl

/-- C10: the claim says lock.release deletes the entry iff the stored value
equals the supplied holder token.  In the source the Lua script passes the
whole KEYS and ARGV tables to redis.call (missing the index 1), so the
script always errors, the error is caught, and release returns false and
deletes nothing — even for the rightful holder.  This theorem evaluates the
code at the failing input: a lock held with token 1712-05 is not deleted by
a release carrying that very token, while the compare-and-delete the claim
describes would delete it and return true. -/
theorem C10_release_never_deletes :
    (∀ (store : RedisStore) (k v : String), lockRelease store k v = (false, store)) ∧
    lockRelease [("lock:event_booking:1", "1712-05")] "lock:event_booking:1" "1712-05"
      = (false, [("lock:event_booking:1", "1712-05")]) ∧
    lockReleaseSpec [("lock:event_booking:1", "1712-05")] "lock:event_booking:1" "1712-05"
      = (true, []) :=
  ⟨fun store k v => lockRelease_always_false store k v, by decide, by decide⟩

theorem cancelBooking_never_touches_seats (db : DB) (bookingId userId : Nat)
    (reason : String) (now : Nat) :
    (cancelBooking db bookingId userId reason now).db.seats = db.seats := by
  unfold cancelBooking
  cases hfind : db.bookings.find? (fun b =>
      decide (b.id = bookingId) && decide (b.userId = userId)) with
  | none => rfl
  | some b0 =>
    simp only
    split
    · rfl
    · split <;> rfl

/-- C4: the claim says cancellation releases the booking's units (clearing
reservation fields of a HELD booking, booked fields of a CONFIRMED one) and
bumps each released unit's version.  The source updates the instance to
CANCELLED first and only then branches on booking.status, so both release
branches are dead: cancellation never mutates any seat row.  First
conjunct: for every input the seat table is untouched by cancelBooking.
Second conjunct: on the concrete store dbA, cancelling the HELD booking
succeeds and marks it CANCELLED, yet seatA stays reserved with its version
unchanged. -/
theorem C4_cancel_releases_nothing :
    (∀ (db : DB) (bookingId userId : Nat) (reason : String) (now : Nat),
      (cancelBooking db bookingId userId reason now).db.seats = db.seats) ∧
    ((∃ r, (cancelBooking dbA 1 7 "CHANGE_OF_PLANS" 1000).result = .success 1 r) ∧
     (cancelBooking dbA 1 7 "CHANGE_OF_PLANS" 1000).db.seats = [seatA] ∧
     ((cancelBooking dbA 1 7 "CHANGE_OF_PLANS" 1000).db.bookings.map
        (fun b => b.status)) = [BookingStatus.CANCELLED]) :=
  ⟨fun db bookingId userId reason now =>
    cancelBooking_never_touches_seats db bookingId userId reason now,
   ⟨_, rfl⟩, by decide, by decide⟩

/-- A CONFIRMED booking whose event is 30 days away at time 1000; as in
every controller fetch, the association is loaded under the alias event,
so the Event slot the model methods read stays empty. -/
def eventC8 : EventRec :=
  { id := 2, dateTime := 1000 + 30 * 86400000, capacity := 100, availableSeats := 99,
    reservedSeats := 0, bookedSeats := 1, price := 50, status := .PUBLISHED }

def bookingC8 : Booking :=
  { id := 2, userId := 8, eventId := 2, ticketCount := 1, totalAmount := 50,
    bookingType := .SEAT_SELECTION, status := .CONFIRMED,
    reservationExpiresAt := none, confirmedAt := some 500, expiredAt := none,
    paymentStatus := .COMPLETED, paymentId := some "PAY1", paymentMethod := some "CARD",
    seatDetails := some [20], cancelledAt := none, cancellationReason := none,
    refundAmount := none, event := none, Event := none }

def dbC8 : DB := { events := [eventC8], seats := [], bookings := [bookingC8] }

theorem canBeCancelled_confirmed_without_Event (b : Booking) (now : Nat)
    (hs : b.status = BookingStatus.CONFIRMED) (he : b.Event = none) :
    canBeCancelled b now = false := by
  unfold canBeCancelled
  rw [hs, he]
  simp

/-- C8: the claim gives the refund tiers for CONFIRMED bookings (100% at 7+
days out, 80% between 1 and 7 days) and rejection under 24 hours.  In the
code those tiers are unreachable: canBeCancelled and calculateRefundAmount
read this.Event, but the association is declared and eager-loaded only under
the alias event, so the Event slot is always empty and a CONFIRMED booking
is never cancellable at all.  First conjunct: any CONFIRMED booking without
the Event slot cannot be cancelled, at any time.  Second: evaluating the
code at the failing input — cancelling a CONFIRMED booking whose event is a
full 30 days away — is rejected as not cancellable, with the store
untouched and a computed refund of 0 rather than 100%. -/
theorem C8_confirmed_never_cancellable :
    (∀ (b : Booking) (now : Nat), b.status = BookingStatus.CONFIRMED → b.Event = none →
      canBeCancelled b now = false) ∧
    (cancelBooking dbC8 2 8 "CHANGE_OF_PLANS" 1000).result = .cannotCancel ∧
    (cancelBooking dbC8 2 8 "CHANGE_OF_PLANS" 1000).db = dbC8 ∧
    calculateRefundAmount { bookingC8 with
      event := some eventC8 } 1000 = 0 :=
  ⟨fun b now hs he => canBeCancelled_confirmed_without_Event b now hs he,
   by decide, by decide, by decide⟩

theorem C8_confirmed_never_cancellable_witness :
    canBeCancelled bookingC8 1000 = false :=
  C8_confirmed_never_cancellable.1 bookingC8 1000 (by decide) (by decide)

/-- C5: the reaper sweep — the two cleanup class methods run over the store —
marks every RESERVED booking whose reservation expired before now as EXPIRED
with expiredAt stamped, and releases every reserved, unbooked seat whose
reservation expired (in particular every unit such a booking holds) by
clearing the reservation fields and bumping the version counter. -/
theorem C5_reaper_expires_and_releases (db : DB) (now : Nat) (b : Booking)
    (e : Nat) (hb : b ∈ db.bookings) (hst : b.status = BookingStatus.RESERVED)
    (hex : b.reservationExpiresAt = some e) (hlt : e < now) :
    ({ b with status := BookingStatus.EXPIRED, expiredAt := some now }
        ∈ (reaperSweep db now).bookings) ∧
    (∀ s ∈ db.seats, s.isReserved = true → s.reserveExpiresAt = some e →
      s.isBooked = false → releasedSeat s ∈ (reaperSweep db now).seats) := by
  constructor
  · rw [show (reaperSweep db now).bookings = (bookingCleanupExpired db now).bookings from rfl]
    unfold bookingCleanupExpired
    refine List.mem_map.mpr ⟨b, hb, ?_⟩
    have hcond : (decide (b.status = BookingStatus.RESERVED)
        && optLt b.reservationExpiresAt now) = true := by
      rw [hst, hex]
      simp [optLt, hlt]
    simp [hcond]
  · intro s hs hr hse hnb
    rw [show (reaperSweep db now).seats = (seatCleanupExpired db now).seats from rfl]
    unfold seatCleanupExpired
    refine List.mem_map.mpr ⟨s, hs, ?_⟩
    have hcond : (s.isReserved && optLt s.reserveExpiresAt now && !s.isBooked) = true := by
      rw [hr, hse, hnb]
      simp [optLt, hlt]
    simp [hcond, releasedSeat]

theorem C5_reaper_expires_and_releases_witness :
    ({ bookingA with status := BookingStatus.EXPIRED, expiredAt := some 1000000 }
        ∈ (reaperSweep dbA 1000000).bookings) ∧
    (∀ s ∈ dbA.seats, s.isReserved = true → s.reserveExpiresAt = some 900000 →
      s.isBooked = false → releasedSeat s ∈ (reaperSweep dbA 1000000).seats) :=
  C5_reaper_expires_and_releases dbA 1000000 bookingA 900000
    (by decide) (by decide) (by decide) (by decide)

theorem confirmFindPred_after_update (db : DB) (bookingId userId : Nat)
    (booking : Booking)
    (hfind : db.bookings.find? (confirmFindPred bookingId userId) = some booking)
    (pid m : String) (now : Nat) :
    (db.bookings.map (fun b =>
        if decide (b.id = booking.id) then applyConfirmBookingUpdate pid m now b
        else b)).find? (confirmFindPred bookingId userId) = none := by
  have hpred := List.find?_some hfind
  have hbid : booking.id = bookingId := by
    simp only [confirmFindPred, Bool.and_eq_true, decide_eq_true_eq] at hpred
    exact hpred.1.1
  rw [List.find?_eq_none]
  intro x hx
  rcases List.mem_map.mp hx with ⟨b, hb, rfl⟩
  by_cases hid : b.id = booking.id
  · simp [hid, applyConfirmBookingUpdate, confirmFindPred]
  · have hdec : decide (b.id = bookingId) = false := by
      rw [← hbid]
      exact decide_eq_false hid
    simp [hid, confirmFindPred, hdec]

theorem confirm_notFound (db : DB) (bookingId userId : Nat) (p : PaymentOutcome)
    (m : String) (l : Bool) (t : Nat)
    (hnone : db.bookings.find? (confirmFindPred bookingId userId) = none) :
    confirmBooking db bookingId userId p m l t
      = ⟨.reservationNotFound, db, false, false, false⟩ := by
  unfold confirmBooking
  rw [hnone]

/-- C2: after a successful confirmation, a second confirmBooking call with
the same bookingId and userId is rejected (the lookup for a RESERVED booking
no longer matches, the source's 404), the payment collaborator is not
invoked by the second call, and the store — booking payment fields and all
inventory units included — is left exactly as the first call committed it. -/
theorem C2_second_confirmation_rejected (db : DB) (bookingId userId : Nat)
    (p1 p2 : PaymentOutcome) (m1 m2 : String) (l1 l2 : Bool) (t1 t2 bid : Nat)
    (h : (confirmBooking db bookingId userId p1 m1 l1 t1).result = .success bid) :
    (confirmBooking (confirmBooking db bookingId userId p1 m1 l1 t1).db
        bookingId userId p2 m2 l2 t2).result = .reservationNotFound ∧
    (confirmBooking (confirmBooking db bookingId userId p1 m1 l1 t1).db
        bookingId userId p2 m2 l2 t2).db
      = (confirmBooking db bookingId userId p1 m1 l1 t1).db ∧
    (confirmBooking (confirmBooking db bookingId userId p1 m1 l1 t1).db
        bookingId userId p2 m2 l2 t2).paymentCalled = false := by
  cases hfind : db.bookings.find? (confirmFindPred bookingId userId) with
  | none =>
    rw [confirm_notFound db bookingId userId p1 m1 l1 t1 hfind] at h
    simp at h
  | some booking =>
    by_cases hexp : confirmExpiredCheck booking.reservationExpiresAt t1 = true
    · have hout : confirmBooking db bookingId userId p1 m1 l1 t1
          = ⟨.gone, db, false, false, false⟩ := by
        unfold confirmBooking
        simp only [hfind]
        rw [if_pos hexp]
      rw [hout] at h
      simp at h
    · by_cases hl : (!l1) = true
      · have hout : confirmBooking db bookingId userId p1 m1 l1 t1
            = ⟨.lockBusy, db, false, false, false⟩ := by
          unfold confirmBooking
          simp only [hfind]
          rw [if_neg hexp, if_pos hl]
        rw [hout] at h
        simp at h
      · cases p1 with
        | declined err =>
          have hout : confirmBooking db bookingId userId (.declined err) m1 l1 t1
              = ⟨.paymentFailed ("Payment failed: " ++ err), db, true, true, true⟩ := by
            unfold confirmBooking
            simp only [hfind]
            rw [if_neg hexp, if_neg hl]
          rw [hout] at h
          simp at h
        | ok pid =>
          have hnone := confirmFindPred_after_update db bookingId userId booking hfind pid m1 t1
          by_cases hbt : booking.bookingType = BookingType.SEAT_SELECTION
          · have hfirst : confirmBooking db bookingId userId (.ok pid) m1 l1 t1
                = ⟨.success booking.id,
                    { db with
                        bookings := db.bookings.map (fun b =>
                          if decide (b.id = booking.id) then
                            applyConfirmBookingUpdate pid m1 t1 b
                          else b),
                        seats := db.seats.map
                          (applyConfirmUpdate (booking.seatDetails.getD [])
                            userId booking.id t1) },
                    true, true, true⟩ := by
              unfold confirmBooking
              simp only [hfind]
              rw [if_neg hexp, if_neg hl, if_pos hbt]
            rw [hfirst]
            have hsecond := confirm_notFound
              (⟨.success booking.id,
                { db with
                    bookings := db.bookings.map (fun b =>
                      if decide (b.id = booking.id) then
                        applyConfirmBookingUpdate pid m1 t1 b
                      else b),
                    seats := db.seats.map
                      (applyConfirmUpdate (booking.seatDetails.getD [])
                        userId booking.id t1) },
                true, true, true⟩ : ConfirmOutcome).db
              bookingId userId p2 m2 l2 t2 hnone
            rw [hsecond]
            exact ⟨rfl, rfl, rfl⟩
          · have hfirst : confirmBooking db bookingId userId (.ok pid) m1 l1 t1
                = ⟨.success booking.id,
                    { db with
                        bookings := db.bookings.map (fun b =>
                          if decide (b.id = booking.id) then
                            applyConfirmBookingUpdate pid m1 t1 b
                          else b),
                        events := db.events.map (fun e =>
                          if decide (e.id = booking.eventId) then
                            { e with
                                reservedSeats := e.reservedSeats - booking.ticketCount,
                                bookedSeats := e.bookedSeats + booking.ticketCount }
                          else e) },
                    true, true, true⟩ := by
              unfold confirmBooking
              simp only [hfind]
              rw [if_neg hexp, if_neg hl, if_neg hbt]
            rw [hfirst]
            have hsecond := confirm_notFound
              (⟨.success booking.id,
                { db with
                    bookings := db.bookings.map (fun b =>
                      if decide (b.id = booking.id) then
                        applyConfirmBookingUpdate pid m1 t1 b
                      else b),
                    events := db.events.map (fun e =>
                      if decide (e.id = booking.eventId) then
                        { e with
                            reservedSeats := e.reservedSeats - booking.ticketCount,
                            bookedSeats := e.bookedSeats + booking.ticketCount }
                      else e) },
                true, true, true⟩ : ConfirmOutcome).db
              bookingId userId p2 m2 l2 t2 hnone
            rw [hsecond]
            exact ⟨rfl, rfl, rfl⟩

theorem C2_second_confirmation_rejected_witness :
    (confirmBooking (confirmBooking dbA 1 7 (.ok "PAY") "CARD" true 100).db
        1 7 (.ok "PAY2") "CARD" true 200).result = ConfirmResult.reservationNotFound ∧
    (confirmBooking (confirmBooking dbA 1 7 (.ok "PAY") "CARD" true 100).db
        1 7 (.ok "PAY2") "CARD" true 200).db
      = (confirmBooking dbA 1 7 (.ok "PAY") "CARD" true 100).db ∧
    (confirmBooking (confirmBooking dbA 1 7 (.ok "PAY") "CARD" true 100).db
        1 7 (.ok "PAY2") "CARD" true 200).paymentCalled = false :=
  C2_second_confirmation_rejected dbA 1 7 (.ok "PAY") (.ok "PAY2") "CARD" "CARD"
    true true 100 200 1 (by decide)

/-- C7: whenever a confirmation attempt reaches the payment collaborator and
it reports failure, the whole outcome is: rejection carrying the payment
error message, store unchanged (no booking or inventory mutation — the
transaction is rolled back), and the booking-level lock taken and released. -/
theorem C7_payment_failure_rolls_back (db : DB) (bookingId userId : Nat)
    (err m : String) (lockAvailable : Bool) (now : Nat)
    (h : (confirmBooking db bookingId userId (.declined err) m lockAvailable now).paymentCalled
      = true) :
    confirmBooking db bookingId userId (.declined err) m lockAvailable now
      = ⟨.paymentFailed ("Payment failed: " ++ err), db, true, true, true⟩ := by
  cases hfind : db.bookings.find? (confirmFindPred bookingId userId) with
  | none =>
    rw [confirm_notFound db bookingId userId (.declined err) m lockAvailable now hfind] at h
    simp at h
  | some booking =>
    by_cases hexp : confirmExpiredCheck booking.reservationExpiresAt now = true
    · have hout : confirmBooking db bookingId userId (.declined err) m lockAvailable now
          = ⟨.gone, db, false, false, false⟩ := by
        unfold confirmBooking
        simp only [hfind]
        rw [if_pos hexp]
      rw [hout] at h
      simp at h
    · by_cases hl : (!lockAvailable) = true
      · have hout : confirmBooking db bookingId userId (.declined err) m lockAvailable now
            = ⟨.lockBusy, db, false, false, false⟩ := by
          unfold confirmBooking
          simp only [hfind]
          rw [if_neg hexp, if_pos hl]
        rw [hout] at h
        simp at h
      · unfold confirmBooking
        simp only [hfind]
        rw [if_neg hexp, if_neg hl]

theorem C7_payment_failure_rolls_back_witness :
    confirmBooking dbA 1 7 (.declined "Payment declined by bank") "CARD" true 100
      = ⟨.paymentFailed ("Payment failed: " ++ "Payment declined by bank"),
          dbA, true, true, true⟩ :=
  C7_payment_failure_rolls_back dbA 1 7 "Payment declined by bank" "CARD" true 100
    (by decide)

theorem confirmExpiredCheck_of_optLt (x : Option Nat) (t : Nat)
    (h : optLt x t = true) : confirmExpiredCheck x t = true := by
  cases x with
  | none => simp [optLt] at h
  | some e =>
    simp [optLt] at h
    simp [confirmExpiredCheck, h]

/-- C3 counterexample: the claim says a confirmation attempt on a HELD
booking whose reservation has lapsed marks it EXPIRED and releases its
units.  On the store dbA at time 1000000 (past the 900000 expiry) the
production confirmBooking answers Gone but leaves the store exactly as it
was: the booking still RESERVED, its seat still reserved. -/
theorem C3_counterexample :
    (confirmBooking dbA 1 7 (.ok "PAY") "CARD" true 1000000).result = .gone ∧
    (confirmBooking dbA 1 7 (.ok "PAY") "CARD" true 1000000).db = dbA ∧
    ((confirmBooking dbA 1 7 (.ok "PAY") "CARD" true 1000000).db.bookings.map
      (fun b => b.status)) = [BookingStatus.RESERVED] ∧
    ((confirmBooking dbA 1 7 (.ok "PAY") "CARD" true 1000000).db.seats.map
      (fun s => s.isReserved)) = [true] := by
  decide

/-- C3 amended: a HELD booking whose reservationExpiresAt has passed is
never confirmable — the production confirmBooking answers Gone with the
store untouched (the booking stays RESERVED and its units stay reserved;
expiry side effects are left to the scheduled timeout and the reaper), while
the alternate BookingController's confirm marks the booking EXPIRED before
throwing Gone, without touching any unit row. -/
theorem C3_expired_confirmation (db : DB) (bookingId userId : Nat)
    (p : PaymentOutcome) (m th qr : String) (l : Bool) (t : Nat)
    (booking booking2 : Booking)
    (hfind : db.bookings.find? (confirmFindPred bookingId userId) = some booking)
    (hexp : optLt booking.reservationExpiresAt t = true)
    (hfind2 : db.bookings.find? (fun b =>
        decide (b.id = bookingId) && decide (b.userId = userId) &&
        (decide (b.status = BookingStatus.SEAT_SELECTED) ||
         decide (b.status = BookingStatus.RESERVED))) = some booking2)
    (hexp2 : optLt booking2.reservationExpiresAt t = true) :
    confirmBooking db bookingId userId p m l t = ⟨.gone, db, false, false, false⟩ ∧
    (bcConfirmBooking db bookingId userId p m th qr t).result = .gone ∧
    (bcConfirmBooking db bookingId userId p m th qr t).db.bookings
      = db.bookings.map (fun b =>
          if decide (b.id = booking2.id) then { b with status := BookingStatus.EXPIRED }
          else b) := by
  refine ⟨?_, ?_, ?_⟩
  · unfold confirmBooking
    simp only [hfind]
    rw [if_pos (confirmExpiredCheck_of_optLt booking.reservationExpiresAt t hexp)]
  · unfold bcConfirmBooking
    simp only [hfind2]
    rw [if_pos hexp2]
  · unfold bcConfirmBooking
    simp only [hfind2]
    rw [if_pos hexp2]

theorem C3_expired_confirmation_witness :
    confirmBooking dbA 1 7 (.ok "PAY") "CARD" true 1000000
      = ⟨.gone, dbA, false, false, false⟩ ∧
    (bcConfirmBooking dbA 1 7 (.ok "PAY") "CARD" "TH" "QR" 1000000).result = .gone ∧
    (bcConfirmBooking dbA 1 7 (.ok "PAY") "CARD" "TH" "QR" 1000000).db.bookings
      = dbA.bookings.map (fun b =>
          if decide (b.id = bookingA.id) then { b with status := BookingStatus.EXPIRED }
          else b) :=
  C3_expired_confirmation dbA 1 7 (.ok "PAY") "CARD" "TH" "QR" true 1000000
    bookingA bookingA (by decide) (by decide) (by decide) (by decide)

/-- A blocked, otherwise free seat of eventA. -/
def seatBlocked : Seat :=
  { id := 11, eventId := 1, price := 50, isBooked := false, isReserved := false,
    isBlocked := true, bookedBy := none, bookingId := none, bookedAt := none,
    reservedBy := none, reservedAt := none, reserveExpiresAt := none, version := 0 }

/-- Store holding only the blocked seat. -/
def dbBlocked : DB := { events := [eventA], seats := [seatBlocked], bookings := [] }

/-- C6 counterexample: the claim says the units re-read under the write-lock
are exactly those not booked, not blocked, and (not reserved, or expired, or
reserved by the requester).  The production controller's filter has no
isBlocked condition and no same-user clause: the blocked seat 11 passes the
controller filter though the claimed filter excludes it, and reserveSeats
happily reserves the blocked seat. -/
theorem C6_counterexample :
    seatPassesReread 1 [11] 100 seatBlocked = true ∧
    specCandidateFilter 1 7 [11] 100 seatBlocked = false ∧
    (∃ amt, (reserveSeats dbBlocked 7 1 [11] .SEAT_SELECTION true 100 99).result
        = .success 99 amt (100 + HOLD_MS)) ∧
    ((reserveSeats dbBlocked 7 1 [11] .SEAT_SELECTION true 100 99).db.seats.map
      (fun s => (s.isBlocked, s.isReserved))) = [(true, true)] :=
  ⟨by decide, by decide, ⟨_, rfl⟩, by decide⟩

theorem seatModelFilter_eq_spec (eventId userId : Nat) (ids : List Nat) (now : Nat)
    (s : Seat) :
    seatModelPassesReread eventId userId ids now s
      = specCandidateFilter eventId userId ids now s := by
  unfold seatModelPassesReread specCandidateFilter
  cases hr : s.isReserved <;> simp

theorem reserve_mismatch_aborts (db : DB) (userId eventId : Nat) (sel : List Nat)
    (now nb : Nat) (event : EventRec)
    (h1 : sel.isEmpty = false)
    (h2 : ¬ (sel.length > 10))
    (hev : db.events.find? (fun e => decide (e.id = eventId)) = some event)
    (hstat : event.status = EventStatus.PUBLISHED)
    (hdate : ¬ (event.dateTime < now))
    (hdup : db.bookings.find? (isActiveReservationOf userId eventId now) = none)
    (hmis : (db.seats.filter (seatPassesReread eventId sel now)).length ≠ sel.length) :
    reserveSeats db userId eventId sel .SEAT_SELECTION true now nb
      = ⟨.unavailable
            ((db.seats.filter (seatPassesReread eventId sel now)).map (fun s => s.id))
            (sel.filter (fun i =>
              !decide (i ∈ (db.seats.filter (seatPassesReread eventId sel now)).map
                  (fun s => s.id)))),
          db, true, true⟩ := by
  unfold reserveSeats
  rw [if_neg (by simp [h1] : ¬ (sel.isEmpty = true))]
  rw [if_neg h2]
  simp only [hev]
  rw [if_neg (by simp [hstat, hdate] :
    ¬ ((!decide (event.status = EventStatus.PUBLISHED)
        || decide (event.dateTime < now)) = true))]
  simp only [hdup]
  rw [if_neg (by simp : ¬ ((!true) = true))]
  rw [if_pos trivial]
  rw [if_pos hmis]

/-- C6 amended: the filter of the claim (not booked, not blocked, not
reserved or expired or held by the requester) is exactly the one of the
Seat model's reserveSeats helper; the production controller's re-read omits
the blocked and same-user clauses (see the counterexample).  In the
controller, whenever the re-read set's size differs from the requested
set's size the transaction is rolled back — the store is returned unchanged
— the distributed lock is released, and the rejection lists the available
ids and exactly the requested ids that were not found. -/
theorem C6_reread_filter_and_mismatch :
    (∀ (eventId userId : Nat) (ids : List Nat) (now : Nat) (s : Seat),
      seatModelPassesReread eventId userId ids now s
        = specCandidateFilter eventId userId ids now s) ∧
    (∀ (db : DB) (userId eventId : Nat) (sel : List Nat) (now nb : Nat)
        (event : EventRec),
      sel.isEmpty = false → ¬ (sel.length > 10) →
      db.events.find? (fun e => decide (e.id = eventId)) = some event →
      event.status = EventStatus.PUBLISHED → ¬ (event.dateTime < now) →
      db.bookings.find? (isActiveReservationOf userId eventId now) = none →
      (db.seats.filter (seatPassesReread eventId sel now)).length ≠ sel.length →
      reserveSeats db userId eventId sel .SEAT_SELECTION true now nb
        = ⟨.unavailable
              ((db.seats.filter (seatPassesReread eventId sel now)).map (fun s => s.id))
              (sel.filter (fun i =>
                !decide (i ∈ (db.seats.filter (seatPassesReread eventId sel now)).map
                    (fun s => s.id)))),
            db, true, true⟩) :=
  ⟨seatModelFilter_eq_spec,
   fun db userId eventId sel now nb event h1 h2 hev hstat hdate hdup hmis =>
     reserve_mismatch_aborts db userId eventId sel now nb event h1 h2 hev hstat hdate
       hdup hmis⟩

theorem C6_reread_filter_and_mismatch_witness :
    (seatModelPassesReread 1 7 [10] 100 seatA = specCandidateFilter 1 7 [10] 100 seatA) ∧
    reserveSeats dbA 9 1 [10] .SEAT_SELECTION true 100 99
      = ⟨.unavailable
            ((dbA.seats.filter (seatPassesReread 1 [10] 100)).map (fun s => s.id))
            ([10].filter (fun i =>
              !decide (i ∈ (dbA.seats.filter (seatPassesReread 1 [10] 100)).map
                  (fun s => s.id)))),
          dbA, true, true⟩ :=
  ⟨C6_reread_filter_and_mismatch.1 1 7 [10] 100 seatA,
   C6_reread_filter_and_mismatch.2 dbA 9 1 [10] 100 99 eventA
     (by decide) (by decide) (by decide) (by decide) (by decide) (by decide) (by decide)⟩

/-- Store with eventA and no seat rows, for capacity-mode requests. -/
def dbCap : DB := { events := [eventA], seats := [], bookings := [] }

/-- C9 counterexample: the claim says a request for more than 10 units is
rejected as invalid before any lock is taken, in capacity mode counting the
requested tickets.  A capacity-mode request for 11 tickets is one array
entry, so it passes the pre-lock length check, acquires the distributed
lock, and dies only on the Booking model's ticketCount validation inside
the transaction. -/
theorem C9_counterexample :
    capacityCount [11] = 11 ∧
    (reserveSeats dbCap 7 1 [11] .GENERAL true 100 99).lockTaken = true ∧
    (reserveSeats dbCap 7 1 [11] .GENERAL true 100 99).result = .createError ∧
    (reserveSeats dbCap 7 1 [11] .GENERAL true 100 99).db = dbCap := by
  decide

theorem reserve_over_limit_rejected (db : DB) (userId eventId : Nat) (sel : List Nat)
    (bt : BookingType) (lock : Bool) (now nb : Nat) (hlen : sel.length > 10) :
    reserveSeats db userId eventId sel bt lock now nb
      = ⟨.invalid "Maximum 10 seats can be reserved at once", db, false, false⟩ := by
  have hne : ¬ (sel.isEmpty = true) := by
    cases sel with
    | nil => simp at hlen
    | cons a l => simp [List.isEmpty]
  unfold reserveSeats
  rw [if_neg hne, if_pos hlen]

theorem reserve_capacity_over_limit (db : DB) (userId eventId : Nat) (sel : List Nat)
    (now nb : Nat) (event : EventRec)
    (h1 : sel.isEmpty = false)
    (h2 : ¬ (sel.length > 10))
    (hev : db.events.find? (fun e => decide (e.id = eventId)) = some event)
    (hstat : event.status = EventStatus.PUBLISHED)
    (hdate : ¬ (event.dateTime < now))
    (hdup : db.bookings.find? (isActiveReservationOf userId eventId now) = none)
    (hcap : ¬ (event.availableSeats < capacityCount sel))
    (hbig : 10 < capacityCount sel) :
    reserveSeats db userId eventId sel .GENERAL true now nb
      = ⟨.createError, db, true, true⟩ := by
  unfold reserveSeats
  rw [if_neg (by simp [h1] : ¬ (sel.isEmpty = true))]
  rw [if_neg h2]
  simp only [hev]
  rw [if_neg (by simp [hstat, hdate] :
    ¬ ((!decide (event.status = EventStatus.PUBLISHED)
        || decide (event.dateTime < now)) = true))]
  simp only [hdup]
  rw [if_neg (by simp : ¬ ((!true) = true))]
  rw [if_neg (by simp : ¬ (BookingType.GENERAL = BookingType.SEAT_SELECTION))]
  rw [if_neg hcap]
  rw [if_pos (by simp [bookingCreateValid]; omega :
    (!bookingCreateValid (capacityCount sel)) = true)]

/-- C9 amended: the pre-lock maximum only counts entries of the request
array.  In seat-selection terms it works as claimed: any request selecting
more than 10 units is rejected as invalid with no lock taken and no store
access.  In capacity mode the requested ticket count is a single array
entry, so a count above 10 passes the pre-checks, acquires the distributed
lock, and is stopped only by the Booking model's ticketCount max-10
validation inside the transaction, which is rolled back (store unchanged)
with the lock released. -/
theorem C9_over_limit_paths :
    (∀ (db : DB) (userId eventId : Nat) (sel : List Nat) (bt : BookingType)
        (lock : Bool) (now nb : Nat), sel.length > 10 →
      reserveSeats db userId eventId sel bt lock now nb
        = ⟨.invalid "Maximum 10 seats can be reserved at once", db, false, false⟩) ∧
    (∀ (db : DB) (userId eventId : Nat) (sel : List Nat) (now nb : Nat)
        (event : EventRec),
      sel.isEmpty = false → ¬ (sel.length > 10) →
      db.events.find? (fun e => decide (e.id = eventId)) = some event →
      event.status = EventStatus.PUBLISHED → ¬ (event.dateTime < now) →
      db.bookings.find? (isActiveReservationOf userId eventId now) = none →
      ¬ (event.availableSeats < capacityCount sel) → 10 < capacityCount sel →
      reserveSeats db userId eventId sel .GENERAL true now nb
        = ⟨.createError, db, true, true⟩) :=
  ⟨fun db userId eventId sel bt lock now nb hlen =>
     reserve_over_limit_rejected db userId eventId sel bt lock now nb hlen,
   fun db userId eventId sel now nb event h1 h2 hev hstat hdate hdup hcap hbig =>
     reserve_capacity_over_limit db userId eventId sel now nb event h1 h2 hev hstat
       hdate hdup hcap hbig⟩

theorem C9_over_limit_paths_witness :
    reserveSeats dbCap 7 1 [1, 2, 3, 4, 5, 6, 7, 8, 9, 10, 11] .SEAT_SELECTION true 100 99
      = ⟨.invalid "Maximum 10 seats can be reserved at once", dbCap, false, false⟩ ∧
    reserveSeats dbCap 7 1 [11] .GENERAL true 100 99
      = ⟨.createError, dbCap, true, true⟩ :=
  ⟨C9_over_limit_paths.1 dbCap 7 1 [1, 2, 3, 4, 5, 6, 7, 8, 9, 10, 11]
     .SEAT_SELECTION true 100 99 (by decide),
   C9_over_limit_paths.2 dbCap 7 1 [11] 100 99 eventA
     (by decide) (by decide) (by decide) (by decide) (by decide) (by decide)
     (by decide) (by decide)⟩

/-! Lemma stack for the concurrency claim: the invariant Inv is preserved by
every serialized reservation attempt, and it bounds the units held. -/

theorem optGt_mono (x : Option Nat) (t t' : Nat) (hle : t ≤ t')
    (h : optGt x t' = true) : optGt x t = true := by
  cases x with
  | none => simp [optGt] at h
  | some e =>
    simp only [optGt, decide_eq_true_eq] at h ⊢
    omega

theorem activeHold_mono (b : Booking) (t t' : Nat) (hle : t ≤ t')
    (h : activeHold b t' = true) : activeHold b t = true := by
  unfold activeHold at h ⊢
  rw [Bool.and_eq_true] at h ⊢
  exact ⟨h.1, optGt_mono _ _ _ hle h.2⟩

theorem Inv_mono (db : DB) (t t' : Nat) (h : Inv db t) (hle : t ≤ t') :
    Inv db t' := by
  obtain ⟨h1, h2, h3, h4⟩ := h
  refine ⟨h1, ?_, ?_, ?_⟩
  · intro b hb ha
    exact h2 b hb (activeHold_mono b t t' hle ha)
  · intro b hb ha
    exact h3 b hb (activeHold_mono b t t' hle ha)
  · exact h4.imp (fun hr ha1 ha2 =>
      hr (activeHold_mono _ t t' hle ha1) (activeHold_mono _ t t' hle ha2))

theorem seatPassesReread_fields (eventId : Nat) (sel : List Nat) (now : Nat)
    (s : Seat) (h : seatPassesReread eventId sel now s = true) :
    s.id ∈ sel ∧ s.eventId = eventId ∧ s.isBooked = false ∧
      (s.isReserved = false ∨ optLt s.reserveExpiresAt now = true) := by
  unfold seatPassesReread at h
  simp only [Bool.and_eq_true, decide_eq_true_eq, Bool.or_eq_true,
    Bool.not_eq_true'] at h
  obtain ⟨⟨⟨hmem, hev⟩, hb⟩, hr⟩ := h
  refine ⟨hmem, hev, hb, ?_⟩
  rcases hr with hr | ⟨_, hlt⟩
  · exact Or.inl hr
  · exact Or.inr hlt

theorem seatPassesReread_of_fields (eventId : Nat) (sel : List Nat) (now : Nat)
    (s : Seat) (hmem : s.id ∈ sel) (hev : s.eventId = eventId)
    (hb : s.isBooked = false)
    (hr : s.isReserved = false ∨ optLt s.reserveExpiresAt now = true) :
    seatPassesReread eventId sel now s = true := by
  unfold seatPassesReread
  simp only [Bool.and_eq_true, decide_eq_true_eq, Bool.or_eq_true,
    Bool.not_eq_true']
  refine ⟨⟨⟨hmem, hev⟩, hb⟩, ?_⟩
  rcases hr with hr | hlt
  · exact Or.inl hr
  · cases hrv : s.isReserved with
    | false => exact Or.inl rfl
    | true => exact Or.inr ⟨rfl, hlt⟩

theorem applyReserveUpdate_id (sel : List Nat) (u now : Nat) (s : Seat) :
    (applyReserveUpdate sel u now s).id = s.id := by
  unfold applyReserveUpdate
  split <;> rfl

theorem applyReserveUpdate_of_not_mem (sel : List Nat) (u now : Nat) (s : Seat)
    (h : s.id ∉ sel) : applyReserveUpdate sel u now s = s := by
  unfold applyReserveUpdate
  rw [if_neg h]

theorem applyReserveUpdate_of_mem (sel : List Nat) (u now : Nat) (s : Seat)
    (h : s.id ∈ sel) :
    applyReserveUpdate sel u now s
      = { s with isReserved := true, reservedBy := some u, reservedAt := some now,
                 reserveExpiresAt := some (now + HOLD_MS), version := s.version + 1 } := by
  unfold applyReserveUpdate
  rw [if_pos h]

theorem updated_seats_ids (seats : List Seat) (sel : List Nat) (u now : Nat) :
    (seats.map (applyReserveUpdate sel u now)).map (fun s => s.id)
      = seats.map (fun s => s.id) := by
  rw [List.map_map]
  exact List.map_congr_left (fun s _ => applyReserveUpdate_id sel u now s)

theorem filter_ids_sharp (seats : List Seat) (p : Seat → Bool) (sel : List Nat)
    (hsub : ∀ s, p s = true → s.id ∈ sel)
    (hnd : (seats.map (fun s => s.id)).Nodup)
    (hlen : (seats.filter p).length = sel.length) :
    sel.Nodup ∧ (∀ i, i ∈ sel ↔ i ∈ (seats.filter p).map (fun s => s.id)) := by
  have hFnd : ((seats.filter p).map (fun s => s.id)).Nodup :=
    hnd.sublist ((List.filter_sublist seats).map _)
  have hFsub : ∀ i ∈ (seats.filter p).map (fun s => s.id), i ∈ sel := by
    intro i hi
    rcases List.mem_map.mp hi with ⟨s, hs, rfl⟩
    exact hsub s (List.of_mem_filter hs)
  have hFlen : ((seats.filter p).map (fun s => s.id)).length = sel.length := by
    rw [List.length_map]
    exact hlen
  have hsubF : ((seats.filter p).map (fun s => s.id)).toFinset ⊆ sel.toFinset := by
    intro x hx
    exact List.mem_toFinset.mpr (hFsub x (List.mem_toFinset.mp hx))
  have hcard1 : ((seats.filter p).map (fun s => s.id)).toFinset.card
      = sel.length := by
    rw [List.toFinset_card_of_nodup hFnd]
    exact hFlen
  have hcard3 : sel.toFinset.card = sel.length :=
    le_antisymm (List.toFinset_card_le sel)
      (by rw [← hcard1]; exact Finset.card_le_card hsubF)
  have heq : ((seats.filter p).map (fun s => s.id)).toFinset = sel.toFinset :=
    Finset.eq_of_subset_of_card_le hsubF (by rw [hcard1, hcard3])
  constructor
  · have hded : sel.dedup.length = sel.length := by
      rw [← List.card_toFinset]
      exact hcard3
    have : sel.dedup = sel := (List.dedup_sublist sel).eq_of_length hded
    rw [← this]
    exact List.nodup_dedup sel
  · intro i
    constructor
    · intro hi
      have : i ∈ sel.toFinset := List.mem_toFinset.mpr hi
      rw [← heq] at this
      exact List.mem_toFinset.mp this
    · exact hFsub i

theorem Inv_insert_reserved (db : DB) (u ev : Nat) (sel : List Nat) (now nb : Nat)
    (hInv : Inv db now)
    (hlen : (db.seats.filter (seatPassesReread ev sel now)).length = sel.length) :
    Inv { db with
            seats := db.seats.map (applyReserveUpdate sel u now),
            bookings := db.bookings ++
              [reservedRow nb u ev (db.seats.filter (seatPassesReread ev sel now))
                BookingType.SEAT_SELECTION now] } now := by
  obtain ⟨hnd, hholds, hnodup, hdisj⟩ := hInv
  have hsub : ∀ s, seatPassesReread ev sel now s = true → s.id ∈ sel :=
    fun s hs => (seatPassesReread_fields ev sel now s hs).1
  have sharp := filter_ids_sharp db.seats (seatPassesReread ev sel now) sel hsub hnd hlen
  have hiff := sharp.2
  have hinj := List.inj_on_of_nodup_map hnd
  have hnotsel : ∀ (s : Seat), s ∈ db.seats → s.isReserved = true →
      optGt s.reserveExpiresAt now = true → s.id ∉ sel := by
    intro s hs hr hgt hmem
    rcases List.mem_map.mp ((hiff s.id).mp hmem) with ⟨s2, hs2, hid⟩
    have hs2s : s2 = s := hinj (List.mem_of_mem_filter hs2) hs hid
    have hP : seatPassesReread ev sel now s = true := by
      rw [← hs2s]
      exact List.of_mem_filter hs2
    rcases (seatPassesReread_fields ev sel now s hP).2.2.2 with hfree | hlt
    · rw [hr] at hfree
      exact Bool.true_eq_false.mp hfree
    · cases hx : s.reserveExpiresAt with
      | none => rw [hx] at hgt; simp [optGt] at hgt
      | some e =>
        rw [hx] at hgt hlt
        simp only [optGt, optLt, decide_eq_true_eq] at hgt hlt
        omega
  refine ⟨?_, ?_, ?_, ?_⟩
  · show ((db.seats.map (applyReserveUpdate sel u now)).map (fun s => s.id)).Nodup
    rw [updated_seats_ids]
    exact hnd
  · intro b hb hact sid hsid
    rcases List.mem_append.mp hb with hold | hnew
    · obtain ⟨s, hsmem, hid, hsev, hbk, hrs, hby, hexp⟩ := hholds b hold hact sid hsid
      have hgt : optGt s.reserveExpiresAt now = true := by
        rw [hexp]
        unfold activeHold at hact
        rw [Bool.and_eq_true] at hact
        exact hact.2
      have hnot : s.id ∉ sel := hnotsel s hsmem hrs hgt
      have hfix : applyReserveUpdate sel u now s = s :=
        applyReserveUpdate_of_not_mem sel u now s hnot
      refine ⟨s, ?_, hid, hsev, hbk, hrs, hby, hexp⟩
      show s ∈ db.seats.map (applyReserveUpdate sel u now)
      exact hfix ▸ List.mem_map_of_mem (applyReserveUpdate sel u now) hsmem
    · rw [List.mem_singleton] at hnew
      subst hnew
      simp only [heldSeatIds, Option.getD_some] at hsid
      rcases List.mem_map.mp hsid with ⟨s, hsF, hid⟩
      have hP : seatPassesReread ev sel now s = true := List.of_mem_filter hsF
      obtain ⟨hmem, hsev, hbk, _⟩ := seatPassesReread_fields ev sel now s hP
      have hupd := applyReserveUpdate_of_mem sel u now s hmem
      refine ⟨applyReserveUpdate sel u now s,
        List.mem_map_of_mem _ (List.mem_of_mem_filter hsF), ?_, ?_, ?_, ?_, ?_, ?_⟩
      · rw [hupd]
        exact hid
      · rw [hupd]
        exact hsev
      · rw [hupd]
        exact hbk
      · rw [hupd]
      · rw [hupd]
        rfl
      · rw [hupd]
        rfl
  · intro b hb hact
    rcases List.mem_append.mp hb with hold | hnew
    · exact hnodup b hold hact
    · rw [List.mem_singleton] at hnew
      subst hnew
      show ((db.seats.filter (seatPassesReread ev sel now)).map (fun s => s.id)).Nodup
      exact hnd.sublist ((List.filter_sublist db.seats).map _)
  · rw [List.pairwise_append]
    refine ⟨hdisj, List.pairwise_singleton _ _, ?_⟩
    intro b1 hb1 b2 hb2 hact1 hact2 sid hsid1
    rw [List.mem_singleton] at hb2
    subst hb2
    obtain ⟨s, hsmem, hid, _, _, hrs, _, hexp⟩ := hholds b1 hb1 hact1 sid hsid1
    have hgt : optGt s.reserveExpiresAt now = true := by
      rw [hexp]
      unfold activeHold at hact1
      rw [Bool.and_eq_true] at hact1
      exact hact1.2
    have hnot : s.id ∉ sel := hnotsel s hsmem hrs hgt
    intro hsid2
    simp only [heldSeatIds, Option.getD_some] at hsid2
    exact hnot ((hiff s.id).mpr (hid ▸ hsid2))

theorem Inv_set_events_insert_noseat (db : DB) (E : List EventRec) (row : Booking)
    (now : Nat) (hInv : Inv db now) (hrow : row.seatDetails = none) :
    Inv { db with events := E, bookings := db.bookings ++ [row] } now := by
  obtain ⟨hnd, hholds, hnodup, hdisj⟩ := hInv
  have hempty : heldSeatIds row = [] := by
    unfold heldSeatIds
    rw [hrow]
    rfl
  refine ⟨hnd, ?_, ?_, ?_⟩
  · intro b hb hact sid hsid
    rcases List.mem_append.mp hb with hold | hnew
    · exact hholds b hold hact sid hsid
    · rw [List.mem_singleton] at hnew
      subst hnew
      rw [hempty] at hsid
      exact absurd hsid (List.not_mem_nil sid)
  · intro b hb hact
    rcases List.mem_append.mp hb with hold | hnew
    · exact hnodup b hold hact
    · rw [List.mem_singleton] at hnew
      subst hnew
      rw [hempty]
      exact List.nodup_nil
  · rw [List.pairwise_append]
    refine ⟨hdisj, List.pairwise_singleton _ _, ?_⟩
    intro b1 hb1 b2 hb2 hact1 hact2 sid hsid1
    rw [List.mem_singleton] at hb2
    subst hb2
    rw [hempty]
    exact List.not_mem_nil sid

theorem reserve_preserves_Inv (db : DB) (u ev : Nat) (sel : List Nat)
    (bt : BookingType) (lock : Bool) (t now nb : Nat)
    (hInv : Inv db t) (hle : t ≤ now) :
    Inv (reserveSeats db u ev sel bt lock now nb).db now := by
  have hInv' : Inv db now := Inv_mono db t now hInv hle
  unfold reserveSeats
  split
  · exact hInv'
  split
  · exact hInv'
  split
  · exact hInv'
  split
  · exact hInv'
  split
  · exact hInv'
  split
  · exact hInv'
  split
  · next hbt =>
    subst hbt
    dsimp only
    split
    · exact hInv'
    · next hlen =>
      split
      · exact hInv'
      · exact Inv_insert_reserved db u ev sel now nb hInv' (not_ne_iff.mp hlen)
  · dsimp only
    split
    · exact hInv'
    · split
      · exact hInv'
      · exact Inv_set_events_insert_noseat db _ _ now hInv' rfl

/-- The timestamp of the last attempt of a trace (the start time when the
trace is empty). -/
def traceEndTime (t0 : Nat) (ops : List ReserveOp) : Nat :=
  ops.foldl (fun _ op => op.time) t0

theorem runReserveTrace_Inv (db : DB) (t0 : Nat) (ops : List ReserveOp)
    (hInv : Inv db t0)
    (hchain : List.Chain (fun a b => a ≤ b) t0 (ops.map (fun op => op.time))) :
    Inv (runReserveTrace db ops) (traceEndTime t0 ops) := by
  induction ops generalizing db t0 with
  | nil => exact hInv
  | cons op rest ih =>
    rw [List.map_cons, List.chain_cons] at hchain
    exact ih (runReserveOp db op) op.time
      (reserve_preserves_Inv db op.userId op.eventId op.selectedSeats op.bookingType
        op.lockAvailable t0 op.time op.newBookingId hInv hchain.1)
      hchain.2

theorem heldUnits_le_of_Inv (db : DB) (ev t : Nat) (hInv : Inv db t) :
    heldUnits db ev t ≤ eventSeatCount db ev := by
  obtain ⟨hnd, hholds, hnodup, hdisj⟩ := hInv
  have hmemL : ∀ b ∈ db.bookings.filter
      (fun b => activeHold b t && decide (b.eventId = ev)),
      b ∈ db.bookings ∧ activeHold b t = true ∧ b.eventId = ev := by
    intro b hb
    have h2 := List.of_mem_filter hb
    rw [Bool.and_eq_true, decide_eq_true_eq] at h2
    exact ⟨List.mem_of_mem_filter hb, h2.1, h2.2⟩
  have hnodupJ : (((db.bookings.filter
      (fun b => activeHold b t && decide (b.eventId = ev))).map
        heldSeatIds).flatten).Nodup := by
    rw [List.nodup_flatten]
    constructor
    · intro l hl
      rcases List.mem_map.mp hl with ⟨b, hb, rfl⟩
      obtain ⟨h1, h2, _⟩ := hmemL b hb
      exact hnodup b h1 h2
    · rw [List.pairwise_map]
      refine List.Pairwise.imp_of_mem ?_
        (hdisj.sublist (List.filter_sublist db.bookings))
      intro b1 b2 hb1 hb2 hr sid h1 h2
      exact hr (hmemL b1 hb1).2.1 (hmemL b2 hb2).2.1 sid h1 h2
  have hsubJ : ∀ i ∈ ((db.bookings.filter
      (fun b => activeHold b t && decide (b.eventId = ev))).map heldSeatIds).flatten,
      i ∈ (db.seats.filter (fun s => decide (s.eventId = ev))).map (fun s => s.id) := by
    intro i hi
    rcases List.mem_flatten.mp hi with ⟨l, hl, hil⟩
    rcases List.mem_map.mp hl with ⟨b, hb, rfl⟩
    obtain ⟨h1, h2, h3⟩ := hmemL b hb
    obtain ⟨s, hs, hid, hsev, _⟩ := hholds b h1 h2 i hil
    refine List.mem_map.mpr ⟨s, List.mem_filter.mpr ⟨hs, ?_⟩, hid⟩
    rw [decide_eq_true_eq, hsev, h3]
  have hlenJ : (((db.bookings.filter
      (fun b => activeHold b t && decide (b.eventId = ev))).map
        heldSeatIds).flatten).length = heldUnits db ev t := by
    rw [List.length_flatten, List.map_map]
    rfl
  have hsubF : (((db.bookings.filter
      (fun b => activeHold b t && decide (b.eventId = ev))).map
        heldSeatIds).flatten).toFinset
      ⊆ ((db.seats.filter (fun s => decide (s.eventId = ev))).map
          (fun s => s.id)).toFinset := by
    intro x hx
    exact List.mem_toFinset.mpr (hsubJ x (List.mem_toFinset.mp hx))
  calc heldUnits db ev t
      = (((db.bookings.filter
          (fun b => activeHold b t && decide (b.eventId = ev))).map
            heldSeatIds).flatten).length := hlenJ.symm
    _ = (((db.bookings.filter
          (fun b => activeHold b t && decide (b.eventId = ev))).map
            heldSeatIds).flatten).toFinset.card :=
        (List.toFinset_card_of_nodup hnodupJ).symm
    _ ≤ ((db.seats.filter (fun s => decide (s.eventId = ev))).map
          (fun s => s.id)).toFinset.card := Finset.card_le_card hsubF
    _ ≤ ((db.seats.filter (fun s => decide (s.eventId = ev))).map
          (fun s => s.id)).length := List.toFinset_card_le _
    _ = eventSeatCount db ev := by
        rw [List.length_map]
        rfl

theorem reserve_seatmode_success (db : DB) (u ev : Nat) (sel : List Nat)
    (now nb : Nat) (event : EventRec)
    (h1 : sel.isEmpty = false)
    (h2 : ¬ (sel.length > 10))
    (hev : db.events.find? (fun e => decide (e.id = ev)) = some event)
    (hstat : event.status = EventStatus.PUBLISHED)
    (hdate : ¬ (event.dateTime < now))
    (hdup : db.bookings.find? (isActiveReservationOf u ev now) = none)
    (hlen : (db.seats.filter (seatPassesReread ev sel now)).length = sel.length)
    (hvalid : bookingCreateValid (db.seats.filter (seatPassesReread ev sel now)).length
      = true) :
    reserveSeats db u ev sel .SEAT_SELECTION true now nb
      = ⟨.success nb ((db.seats.filter (seatPassesReread ev sel now)).map
            (fun s => s.price)).sum (now + HOLD_MS),
          { db with
              seats := db.seats.map (applyReserveUpdate sel u now),
              bookings := db.bookings ++
                [reservedRow nb u ev (db.seats.filter (seatPassesReread ev sel now))
                  BookingType.SEAT_SELECTION now] },
          true, true⟩ := by
  unfold reserveSeats
  rw [if_neg (by simp [h1] : ¬ (sel.isEmpty = true))]
  rw [if_neg h2]
  simp only [hev]
  rw [if_neg (by simp [hstat, hdate] :
    ¬ ((!decide (event.status = EventStatus.PUBLISHED)
        || decide (event.dateTime < now)) = true))]
  simp only [hdup]
  rw [if_neg (by simp : ¬ ((!true) = true))]
  rw [if_pos trivial]
  rw [if_neg (by simp [hlen] :
    ¬ ((db.seats.filter (seatPassesReread ev sel now)).length ≠ sel.length))]
  rw [if_neg (by simp [hvalid] :
    ¬ ((!bookingCreateValid (db.seats.filter (seatPassesReread ev sel now)).length)
        = true))]

theorem two_overlapping_requests (db : DB) (u1 u2 ev : Nat) (S1 S2 : List Nat)
    (t nb1 nb2 : Nat) (event : EventRec)
    (hnd : (db.seats.map (fun s => s.id)).Nodup)
    (hev : db.events.find? (fun e => decide (e.id = ev)) = some event)
    (hstat : event.status = EventStatus.PUBLISHED)
    (hdate : ¬ (event.dateTime < t))
    (hno1 : db.bookings.find? (isActiveReservationOf u1 ev t) = none)
    (hno2 : db.bookings.find? (isActiveReservationOf u2 ev t) = none)
    (hS1ne : S1.isEmpty = false) (hS1len : S1.length ≤ 10) (hS1nd : S1.Nodup)
    (hS2ne : S2.isEmpty = false) (hS2len : S2.length ≤ 10) (hS2nd : S2.Nodup)
    (havail : ∀ sid ∈ S1, ∃ s ∈ db.seats, s.id = sid ∧ s.eventId = ev ∧
      s.isBooked = false ∧ (s.isReserved = false ∨ optLt s.reserveExpiresAt t = true))
    (hover : ∃ x, x ∈ S1 ∧ x ∈ S2)
    (hu : u1 ≠ u2) :
    (∃ amt, (reserveSeats db u1 ev S1 .SEAT_SELECTION true t nb1).result
        = .success nb1 amt (t + HOLD_MS)) ∧
    (∃ av unav,
      (reserveSeats (reserveSeats db u1 ev S1 .SEAT_SELECTION true t nb1).db
          u2 ev S2 .SEAT_SELECTION true t nb2).result = .unavailable av unav ∧
      ∀ y ∈ S2, y ∈ S1 → y ∈ unav) ∧
    (reserveSeats (reserveSeats db u1 ev S1 .SEAT_SELECTION true t nb1).db
        u2 ev S2 .SEAT_SELECTION true t nb2).db
      = (reserveSeats db u1 ev S1 .SEAT_SELECTION true t nb1).db := by
  have hF1nd : ((db.seats.filter (seatPassesReread ev S1 t)).map
      (fun s => s.id)).Nodup :=
    hnd.sublist ((List.filter_sublist db.seats).map _)
  have hF1iff : ∀ i, i ∈ (db.seats.filter (seatPassesReread ev S1 t)).map
      (fun s => s.id) ↔ i ∈ S1 := by
    intro i
    constructor
    · intro hi
      rcases List.mem_map.mp hi with ⟨s, hs, rfl⟩
      exact (seatPassesReread_fields ev S1 t s (List.of_mem_filter hs)).1
    · intro hi
      obtain ⟨s, hs, hid, hsev, hbk, hfree⟩ := havail i hi
      refine List.mem_map.mpr ⟨s, List.mem_filter.mpr ⟨hs, ?_⟩, hid⟩
      exact seatPassesReread_of_fields ev S1 t s (hid ▸ hi) hsev hbk hfree
  have hsame : ((db.seats.filter (seatPassesReread ev S1 t)).map
      (fun s => s.id)).toFinset = S1.toFinset := by
    ext a
    simp only [List.mem_toFinset]
    exact hF1iff a
  have hlen1 : (db.seats.filter (seatPassesReread ev S1 t)).length = S1.length := by
    calc (db.seats.filter (seatPassesReread ev S1 t)).length
        = ((db.seats.filter (seatPassesReread ev S1 t)).map (fun s => s.id)).length := by
          rw [List.length_map]
      _ = ((db.seats.filter (seatPassesReread ev S1 t)).map
            (fun s => s.id)).toFinset.card := (List.toFinset_card_of_nodup hF1nd).symm
      _ = S1.toFinset.card := by rw [hsame]
      _ = S1.length := List.toFinset_card_of_nodup hS1nd
  have hS1pos : 1 ≤ S1.length := by
    cases S1 with
    | nil => simp at hS1ne
    | cons a l => simp
  have hvalid1 : bookingCreateValid
      (db.seats.filter (seatPassesReread ev S1 t)).length = true := by
    unfold bookingCreateValid
    rw [hlen1]
    simp only [Bool.and_eq_true, decide_eq_true_eq]
    omega
  have hfirst := reserve_seatmode_success db u1 ev S1 t nb1 event hS1ne
    (by omega) hev hstat hdate hno1 hlen1 hvalid1
  have hdb1 : (reserveSeats db u1 ev S1 .SEAT_SELECTION true t nb1).db
      = { db with
            seats := db.seats.map (applyReserveUpdate S1 u1 t),
            bookings := db.bookings ++
              [reservedRow nb1 u1 ev (db.seats.filter (seatPassesReread ev S1 t))
                BookingType.SEAT_SELECTION t] } := by
    rw [hfirst]
  have hblock : ∀ y ∈ S1,
      y ∉ ((reserveSeats db u1 ev S1 .SEAT_SELECTION true t nb1).db.seats.filter
        (seatPassesReread ev S2 t)).map (fun s => s.id) := by
    rw [hdb1]
    intro y hy hmem
    rcases List.mem_map.mp hmem with ⟨s2, hs2, hid2⟩
    rcases List.mem_map.mp (List.mem_of_mem_filter hs2) with ⟨s, hs, rfl⟩
    have hids : s.id ∈ S1 := by
      rw [applyReserveUpdate_id] at hid2
      rw [hid2]
      exact hy
    have hupd := applyReserveUpdate_of_mem S1 u1 t s hids
    obtain ⟨_, _, _, hfree⟩ :=
      seatPassesReread_fields ev S2 t _ (List.of_mem_filter hs2)
    rw [hupd] at hfree
    rcases hfree with hfr | hlt
    · simp at hfr
    · simp only [optLt, decide_eq_true_eq] at hlt
      omega
  have hseats1 : ((reserveSeats db u1 ev S1 .SEAT_SELECTION true t nb1).db.seats.map
      (fun s => s.id)) = db.seats.map (fun s => s.id) := by
    rw [hdb1]
    exact updated_seats_ids db.seats S1 u1 t
  have hmis2 : (((reserveSeats db u1 ev S1 .SEAT_SELECTION true t nb1).db.seats.filter
      (seatPassesReread ev S2 t)).length ≠ S2.length) := by
    obtain ⟨x, hx1, hx2⟩ := hover
    have hF2nd : (((reserveSeats db u1 ev S1 .SEAT_SELECTION true t nb1).db.seats.filter
        (seatPassesReread ev S2 t)).map (fun s => s.id)).Nodup :=
      (hseats1 ▸ hnd).sublist ((List.filter_sublist _).map _)
    have hF2sub : ∀ y ∈ (((reserveSeats db u1 ev S1 .SEAT_SELECTION true t nb1).db.seats.filter
        (seatPassesReread ev S2 t)).map (fun s => s.id)), y ∈ S2 := by
      intro y hy
      rcases List.mem_map.mp hy with ⟨s, hs, rfl⟩
      exact (seatPassesReread_fields ev S2 t s (List.of_mem_filter hs)).1
    have hxnot := hblock x hx1
    have hsubE : (((reserveSeats db u1 ev S1 .SEAT_SELECTION true t nb1).db.seats.filter
        (seatPassesReread ev S2 t)).map (fun s => s.id)).toFinset
        ⊆ S2.toFinset.erase x := by
      intro y hy
      have hyF := List.mem_toFinset.mp hy
      refine Finset.mem_erase.mpr ⟨?_, List.mem_toFinset.mpr (hF2sub y hyF)⟩
      intro hyx
      rw [hyx] at hyF
      exact hxnot hyF
    have hcard1 : (((reserveSeats db u1 ev S1 .SEAT_SELECTION true t nb1).db.seats.filter
        (seatPassesReread ev S2 t)).map (fun s => s.id)).length
        = (((reserveSeats db u1 ev S1 .SEAT_SELECTION true t nb1).db.seats.filter
          (seatPassesReread ev S2 t)).map (fun s => s.id)).toFinset.card :=
      (List.toFinset_card_of_nodup hF2nd).symm
    have hcard2 := Finset.card_le_card hsubE
    have hcard3 : (S2.toFinset.erase x).card = S2.toFinset.card - 1 :=
      Finset.card_erase_of_mem (List.mem_toFinset.mpr hx2)
    have hcard4 : S2.toFinset.card = S2.length := List.toFinset_card_of_nodup hS2nd
    have hpos : 0 < S2.length := List.length_pos_of_mem hx2
    have hlenmap : (((reserveSeats db u1 ev S1 .SEAT_SELECTION true t nb1).db.seats.filter
        (seatPassesReread ev S2 t)).map (fun s => s.id)).length
        = ((reserveSeats db u1 ev S1 .SEAT_SELECTION true t nb1).db.seats.filter
          (seatPassesReread ev S2 t)).length := List.length_map _ _
    omega
  have hpredrow : isActiveReservationOf u2 ev t
      (reservedRow nb1 u1 ev (db.seats.filter (seatPassesReread ev S1 t))
        BookingType.SEAT_SELECTION t) = false := by
    simp [isActiveReservationOf, reservedRow, hu]
  have hdup2 : (reserveSeats db u1 ev S1 .SEAT_SELECTION true t nb1).db.bookings.find?
      (isActiveReservationOf u2 ev t) = none := by
    rw [hdb1]
    show (db.bookings ++ [reservedRow nb1 u1 ev
      (db.seats.filter (seatPassesReread ev S1 t)) BookingType.SEAT_SELECTION t]).find?
      (isActiveReservationOf u2 ev t) = none
    rw [List.find?_append, hno2]
    simp [List.find?, hpredrow]
  have hev2 : (reserveSeats db u1 ev S1 .SEAT_SELECTION true t nb1).db.events.find?
      (fun e => decide (e.id = ev)) = some event := by
    rw [hdb1]
    exact hev
  have hsecond := reserve_mismatch_aborts
    (reserveSeats db u1 ev S1 .SEAT_SELECTION true t nb1).db u2 ev S2 t nb2 event
    hS2ne (by omega) hev2 hstat hdate hdup2 hmis2
  refine ⟨⟨_, by rw [hfirst]⟩, ⟨_, _, by rw [hsecond], ?_⟩, by rw [hsecond]⟩
  intro y hy2 hy1
  refine List.mem_filter.mpr ⟨hy2, ?_⟩
  simp only [Bool.not_eq_true', decide_eq_false_iff_not]
  exact hblock y hy1

theorem Inv_of_no_bookings (db : DB) (t : Nat)
    (h : (db.seats.map (fun s => s.id)).Nodup) (hb : db.bookings = []) :
    Inv db t := by
  refine ⟨h, ?_, ?_, ?_⟩ <;> simp [hb]

/-- C1: over any serialized run of reservation attempts (the distributed
per-event lock and the row locks serialize conflicting attempts), the units
held by active bookings of an event never exceed that event's inventory and
no unit is held by two bookings at once; and of two simultaneous requests
with overlapping unit sets by different users over available units, the one
the lock admits first succeeds in full while the other is rejected with
every overlapping unit listed as unavailable and no store mutation at all —
no partial success on either side. -/
theorem C1_no_oversell_and_mutual_exclusion :
    (∀ (db : DB) (t0 : Nat) (ops : List ReserveOp) (ev : Nat),
      Inv db t0 →
      List.Chain (fun a b => a ≤ b) t0 (ops.map (fun op => op.time)) →
      heldUnits (runReserveTrace db ops) ev (traceEndTime t0 ops)
          ≤ eventSeatCount (runReserveTrace db ops) ev ∧
      (runReserveTrace db ops).bookings.Pairwise (fun b1 b2 =>
        activeHold b1 (traceEndTime t0 ops) = true →
        activeHold b2 (traceEndTime t0 ops) = true →
        ∀ sid ∈ heldSeatIds b1, sid ∉ heldSeatIds b2)) ∧
    (∀ (db : DB) (u1 u2 ev : Nat) (S1 S2 : List Nat) (t nb1 nb2 : Nat)
        (event : EventRec),
      (db.seats.map (fun s => s.id)).Nodup →
      db.events.find? (fun e => decide (e.id = ev)) = some event →
      event.status = EventStatus.PUBLISHED →
      ¬ (event.dateTime < t) →
      db.bookings.find? (isActiveReservationOf u1 ev t) = none →
      db.bookings.find? (isActiveReservationOf u2 ev t) = none →
      S1.isEmpty = false → S1.length ≤ 10 → S1.Nodup →
      S2.isEmpty = false → S2.length ≤ 10 → S2.Nodup →
      (∀ sid ∈ S1, ∃ s ∈ db.seats, s.id = sid ∧ s.eventId = ev ∧
        s.isBooked = false ∧ (s.isReserved = false ∨ optLt s.reserveExpiresAt t = true)) →
      (∃ x, x ∈ S1 ∧ x ∈ S2) →
      u1 ≠ u2 →
      (∃ amt, (reserveSeats db u1 ev S1 .SEAT_SELECTION true t nb1).result
          = .success nb1 amt (t + HOLD_MS)) ∧
      (∃ av unav,
        (reserveSeats (reserveSeats db u1 ev S1 .SEAT_SELECTION true t nb1).db
            u2 ev S2 .SEAT_SELECTION true t nb2).result = .unavailable av unav ∧
        ∀ y ∈ S2, y ∈ S1 → y ∈ unav) ∧
      (reserveSeats (reserveSeats db u1 ev S1 .SEAT_SELECTION true t nb1).db
          u2 ev S2 .SEAT_SELECTION true t nb2).db
        = (reserveSeats db u1 ev S1 .SEAT_SELECTION true t nb1).db) :=
  ⟨fun db t0 ops ev hInv hchain =>
    have h := runReserveTrace_Inv db t0 ops hInv hchain
    ⟨heldUnits_le_of_Inv _ ev _ h, h.2.2.2⟩,
   fun db u1 u2 ev S1 S2 t nb1 nb2 event hnd hev hstat hdate hno1 hno2 hS1ne hS1len
       hS1nd hS2ne hS2len hS2nd havail hover hu =>
    two_overlapping_requests db u1 u2 ev S1 S2 t nb1 nb2 event hnd hev hstat hdate
      hno1 hno2 hS1ne hS1len hS1nd hS2ne hS2len hS2nd havail hover hu⟩

/-- A free seat of eventA. -/
def seatFree1 : Seat :=
  { id := 1, eventId := 1, price := 50, isBooked := false, isReserved := false,
    isBlocked := false, bookedBy := none, bookingId := none, bookedAt := none,
    reservedBy := none, reservedAt := none, reserveExpiresAt := none, version := 0 }

/-- A second free seat of eventA. -/
def seatFree2 : Seat := { seatFree1 with id := 2 }

/-- Store with two free seats and no bookings. -/
def dbTwoSeats : DB :=
  { events := [eventA], seats := [seatFree1, seatFree2], bookings := [] }

/-- User 7 reserves seats 1 and 2 at time 100. -/
def opA : ReserveOp := ⟨7, 1, [1, 2], .SEAT_SELECTION, true, 100, 50⟩

/-- User 9 tries to reserve seat 2 at the same time. -/
def opB : ReserveOp := ⟨9, 1, [2], .SEAT_SELECTION, true, 100, 51⟩

theorem C1_no_oversell_and_mutual_exclusion_witness :
    (heldUnits (runReserveTrace dbTwoSeats [opA, opB]) 1 (traceEndTime 100 [opA, opB])
        ≤ eventSeatCount (runReserveTrace dbTwoSeats [opA, opB]) 1 ∧
      (runReserveTrace dbTwoSeats [opA, opB]).bookings.Pairwise (fun b1 b2 =>
        activeHold b1 (traceEndTime 100 [opA, opB]) = true →
        activeHold b2 (traceEndTime 100 [opA, opB]) = true →
        ∀ sid ∈ heldSeatIds b1, sid ∉ heldSeatIds b2)) ∧
    ((∃ amt, (reserveSeats dbTwoSeats 7 1 [1, 2] .SEAT_SELECTION true 100 50).result
        = .success 50 amt (100 + HOLD_MS)) ∧
      (∃ av unav,
        (reserveSeats (reserveSeats dbTwoSeats 7 1 [1, 2] .SEAT_SELECTION true 100 50).db
            9 1 [2] .SEAT_SELECTION true 100 51).result = .unavailable av unav ∧
        ∀ y ∈ [2], y ∈ [1, 2] → y ∈ unav) ∧
      (reserveSeats (reserveSeats dbTwoSeats 7 1 [1, 2] .SEAT_SELECTION true 100 50).db
          9 1 [2] .SEAT_SELECTION true 100 51).db
        = (reserveSeats dbTwoSeats 7 1 [1, 2] .SEAT_SELECTION true 100 50).db) :=
  ⟨C1_no_oversell_and_mutual_exclusion.1 dbTwoSeats 100 [opA, opB] 1
     (Inv_of_no_bookings dbTwoSeats 100 (by decide) rfl)
     (List.Chain.cons (by decide) (List.Chain.cons (by decide) List.Chain.nil)),
   C1_no_oversell_and_mutual_exclusion.2 dbTwoSeats 7 9 1 [1, 2] [2] 100 50 51 eventA
     (by decide) (by decide) (by decide) (by decide) (by decide) (by decide)
     (by decide) (by decide) (by decide) (by decide) (by decide) (by decide)
     (by decide) ⟨2, by decide, by decide⟩ (by decide)⟩

end Evently
